import Mathlib

/-!
Shallow embedding of the simulation-state tracker and spawner scheduler of
the rustycs-macroquad demo (src/sim_tracker.rs, src/controller.rs,
src/rustycs_utility.rs, src/main.rs).

Time is modelled as rational seconds.  A Rust `Instant` is the rational
timestamp at which it was taken, and `instant.elapsed()` observed at time
`now` is `now - instant`.  Every frame of the main loop is treated as
happening at a single timestamp `now`, matching the once-per-frame
wall-clock sampling of the loop.  The `f32` durations of the source are
rationals; `u8` and `u32` counters are naturals reduced modulo `2 ^ 8`,
`2 ^ 32` where the source could wrap.
-/

namespace RustycsDemo

/-- Debug-visibility flag (sim_tracker.rs, enum `ShowDebug`). -/
inductive ShowDebug
  | Visible
  | Hidden
deriving DecidableEq

/-- Source `ShowDebug::toggle`. -/
def ShowDebug.toggle : ShowDebug → ShowDebug
  | .Visible => .Hidden
  | .Hidden => .Visible

/-- Simulation mode (sim_tracker.rs, enum `SimulationMode`). -/
inductive SimulationMode
  | Running
  | Paused
deriving DecidableEq

/-- Source `SimulationMode::toggle`. -/
def SimulationMode.toggle : SimulationMode → SimulationMode
  | .Running => .Paused
  | .Paused => .Running

/-- Source struct `SimulationState` (sim_tracker.rs).  `Instant` fields are
rational timestamps, `f32` timeouts are rational second counts, and the
`u32` counter `nr_of_updates` is a natural kept below `2 ^ 32`. -/
structure SimulationState where
  debug_information : ShowDebug
  collision_points : ShowDebug
  hitboxes : ShowDebug
  debug_grid : ShowDebug
  grid_ratio : ℚ
  simulation : SimulationMode
  debug_instant : ℚ
  debug_timeout : ℚ
  spawn_instant : ℚ
  spawn_timeout : ℚ
  tick_instant : ℚ
  tick_timeout : ℚ
  pause_instant : ℚ
  pause_timeout : ℚ
  update_instant : ℚ
  update_timeout : ℚ
  nr_of_updates : ℕ
  max_update_duration : ℚ
deriving DecidableEq

/-- Source `impl Default for SimulationState`; every `Instant::now()` taken
at construction is the construction timestamp `now`. -/
def SimulationState.default (now : ℚ) : SimulationState where
  debug_information := .Visible
  collision_points := .Hidden
  hitboxes := .Hidden
  debug_grid := .Hidden
  debug_instant := now
  debug_timeout := 1 / 4
  grid_ratio := 10
  simulation := .Running
  spawn_instant := now
  spawn_timeout := 3 / 20
  tick_instant := now
  tick_timeout := 1 / 64
  pause_instant := now
  pause_timeout := 1 / 4
  update_instant := now
  update_timeout := 1 / 4
  nr_of_updates := 0
  max_update_duration := 0

/-- Source `SimulationState::new`. -/
def SimulationState.new (tick_timeout : ℚ) (now : ℚ) : SimulationState :=
  { SimulationState.default now with tick_timeout := tick_timeout }

/-- Source `SimulationState::is_pausable`. -/
def SimulationState.is_pausable (s : SimulationState) (now : ℚ) : Bool :=
  decide (s.pause_timeout ≤ now - s.pause_instant)

/-- Source `SimulationState::is_spawnable`. -/
def SimulationState.is_spawnable (s : SimulationState) (now : ℚ) : Bool :=
  decide (s.spawn_timeout ≤ now - s.spawn_instant)

/-- Source `SimulationState::debug_toggable` (takes `&mut self` in the
source but mutates nothing). -/
def SimulationState.debug_toggable (s : SimulationState) (now : ℚ) : Bool :=
  decide (s.debug_timeout ≤ now - s.debug_instant)

/-- Source `SimulationState::update_required`. -/
def SimulationState.update_required (s : SimulationState) (now : ℚ) : Bool :=
  decide (s.tick_timeout ≤ now - s.tick_instant)

/-- Source `SimulationState::atomic_update_allowed`. -/
def SimulationState.atomic_update_allowed (s : SimulationState) (now : ℚ) : Bool :=
  decide (s.update_timeout ≤ now - s.update_instant)

/-- Modelled from the spec: `rustycs::body::Body` is external to this
repository; the demo code touches only its transform location (cloned and
jittered on spawn), so a body is modelled as that location. -/
structure Body where
  x : ℚ
  y : ℚ
deriving DecidableEq

/-- Source enum `SpawnerType` (rustycs_utility.rs). -/
inductive SpawnerType
  | Single
  | Pipeline
deriving DecidableEq

/-- Source struct `BodySpawner` (rustycs_utility.rs); `amount` and `count`
are `u8` in the source, kept below `2 ^ 8`. -/
structure BodySpawner where
  body : Body
  body_pipeline : List Body
  amount : ℕ
  count : ℕ
  timer : ℚ
  period : ℚ
  t : SpawnerType
  offset : ℚ
deriving DecidableEq

/-- Source `impl Default for BodySpawner`; `Instant::now()` is the
construction timestamp `now`. -/
def BodySpawner.mkDefault (now : ℚ) : BodySpawner where
  body := ⟨0, 0⟩
  body_pipeline := []
  amount := 1
  count := 0
  timer := now
  period := 1
  t := .Single
  offset := 0

/-- Source `BodySpawner::new_single_type`. -/
def BodySpawner.new_single_type (body : Body) (amount : ℕ) (frequency_in_hz : ℚ)
    (offset : ℚ) (now : ℚ) : BodySpawner :=
  { BodySpawner.mkDefault now with
      body := body, amount := amount, period := 1 / frequency_in_hz, offset := offset }

/-- Source `BodySpawner::new_pipeline`. -/
def BodySpawner.new_pipeline (body_pipeline : List Body) (frequency_in_hz : ℚ)
    (now : ℚ) : BodySpawner :=
  { BodySpawner.mkDefault now with
      body_pipeline := body_pipeline, period := 1 / frequency_in_hz, t := .Pipeline }

/-- Source `BodySpawner::spawn`.  The two thread-rng jitter draws are the
oracle inputs `rx ry` (each sampled from `(-offset, offset)` when
`offset ≠ 0`).  The `u8` counter wraps modulo `2 ^ 8`.  The `Pipeline`
branch pops from the tail of the vector; the `expect` panic on an empty
vector is modelled as `none`. -/
def BodySpawner.spawn (s : BodySpawner) (rx ry : ℚ) : Option (Body × BodySpawner) :=
  match s.t with
  | .Single =>
    let offset_x : ℚ := if s.offset ≠ 0 then rx else 0
    let offset_y : ℚ := if s.offset ≠ 0 then ry else 0
    some (⟨s.body.x + offset_x, s.body.y + offset_y⟩,
      { s with count := (s.count + 1) % 2 ^ 8 })
  | .Pipeline =>
    match s.body_pipeline.getLast? with
    | some b => some (b, { s with body_pipeline := s.body_pipeline.dropLast })
    | none => none

/-- Source `BodySpawner::is_spawnable` (takes `&mut self` in the source but
mutates nothing). -/
def BodySpawner.is_spawnable (s : BodySpawner) (now : ℚ) : Bool :=
  match s.t with
  | .Single => decide (s.count < s.amount) && decide (s.period ≤ now - s.timer)
  | .Pipeline => !s.body_pipeline.isEmpty && decide (s.period ≤ now - s.timer)

/-- Modelled from the spec: the external rustycs `World` collaborator.  The
frame loop observes it only through `update` (one fixed physics step),
`add_body`, `add_attractor` and `change_ptm_ratio`; those effects are
recorded as lists and counters. -/
structure World where
  bodies : List Body
  attractors : ℕ
  steps : ℕ
  ptm_ratio : ℚ
deriving DecidableEq

/-- One fixed physics step of the external world. -/
def World.update (w : World) : World := { w with steps := w.steps + 1 }

/-- Insert an entity into the external world. -/
def World.add_body (w : World) (b : Body) : World := { w with bodies := w.bodies ++ [b] }

/-- Insert an attractor into the external world. -/
def World.add_attractor (w : World) : World := { w with attractors := w.attractors + 1 }

/-- Zoom: multiply the pixel-to-meter ratio by a factor. -/
def World.change_ptm_ratio (w : World) (factor : ℚ) : World :=
  { w with ptm_ratio := w.ptm_ratio * factor }

/-- The macroquad key codes the demo binds (controller.rs constants). -/
inductive KeyCode
  | W | S | A | D | Up | Down | R
  | Key1 | Key2 | Key3 | Key4 | Key5
  | T | Escape | H | C | G | U
deriving DecidableEq

def MOVE_CAMERA_UP : KeyCode := .W
def MOVE_CAMERA_DOWN : KeyCode := .S
def MOVE_CAMERA_LEFT : KeyCode := .A
def MOVE_CAMERA_RIGHT : KeyCode := .D
def ZOOM_CAMERA_IN : KeyCode := .Up
def ZOOM_CAMERA_OUT : KeyCode := .Down
def RESET_CAMERA_POS : KeyCode := .R
def SPAWN_CIRCLE : KeyCode := .Key1
def SPAWN_AABB : KeyCode := .Key2
def SPAWN_OBB : KeyCode := .Key3
def SPAWN_POLYGON : KeyCode := .Key4
def SPAWN_ATTRACTOR : KeyCode := .Key5
def TOGGLE_TEXT : KeyCode := .T
def OPEN_MENU_AND_PAUSE : KeyCode := .Escape
def TOGGLE_HITBOXES : KeyCode := .H
def TOGGLE_COLLISION_POINTS : KeyCode := .C
def TOGGLE_GRID : KeyCode := .G
def WORLD_UPDATE : KeyCode := .U

/-- Source struct `UserController` (controller.rs). -/
structure UserController where
  user_actions : List KeyCode
  active_actions : List KeyCode
  scroll_speed : ℚ
  zoom_speed : ℚ
  sampling_rate : ℚ
  sampling_instant : ℚ
deriving DecidableEq

/-- Source `UserController::new`; `Instant::now()` is the construction
timestamp `now`. -/
def UserController.new (scroll_speed zoom_speed : ℚ) (now : ℚ) : UserController where
  user_actions :=
    [MOVE_CAMERA_UP, MOVE_CAMERA_DOWN, MOVE_CAMERA_LEFT, MOVE_CAMERA_RIGHT,
     ZOOM_CAMERA_IN, ZOOM_CAMERA_OUT, SPAWN_CIRCLE, SPAWN_AABB, SPAWN_OBB,
     SPAWN_POLYGON, SPAWN_ATTRACTOR, TOGGLE_TEXT, TOGGLE_GRID, TOGGLE_HITBOXES,
     TOGGLE_COLLISION_POINTS, WORLD_UPDATE, RESET_CAMERA_POS]
  active_actions := []
  scroll_speed := scroll_speed
  zoom_speed := zoom_speed
  sampling_rate := 1 / 120
  sampling_instant := now

/-- Source `UserController::detect_current_actions`; `keysDown` is the set
of keys currently held (macroquad `is_key_down`). -/
def UserController.detect_current_actions (c : UserController) (keysDown : List KeyCode)
    (now : ℚ) : UserController :=
  if c.sampling_rate ≤ now - c.sampling_instant then
    { c with active_actions := c.user_actions.filter (fun k => decide (k ∈ keysDown)),
             sampling_instant := now }
  else
    { c with active_actions := [] }

/-- Source `UserController::user_paused`: is the escape key held. -/
def UserController.user_paused (keysDown : List KeyCode) : Bool :=
  decide (OPEN_MENU_AND_PAUSE ∈ keysDown)

/-- Accumulator threaded through the dispatch loop of
`UserController::handle_current_actions`: the world, the camera offsets,
the simulation state and the `added` flag. -/
structure HandleAcc where
  world : World
  offset_x : ℚ
  offset_y : ℚ
  state : SimulationState
  added : Bool
deriving DecidableEq

/-- One iteration of the `for action in active_actions` match inside
`UserController::handle_current_actions` (controller.rs), written as a
match on the bound key of each arm (each arm of the source match is a
`KeyCode` constant; the `any_toggle` catch-all covers the four toggle keys
and, with `toggled = false`, every other key such as Escape).  `wp` is the
mouse world position; `polyRes` is the result of the external
`Body::polygon` constructor used by `spawn_polygon` (the other spawn
helpers add a body at the mouse world position, their random material and
fixed shape being external data this model does not track). -/
def handleAction (scroll_speed zoom_speed : ℚ) (wp : Body) (polyRes : Option Body)
    (now : ℚ) (a : HandleAcc) : KeyCode → HandleAcc
  | .Key2 => { a with world := a.world.add_body wp, added := true }
  | .Key3 => { a with world := a.world.add_body wp, added := true }
  | .Key1 => { a with world := a.world.add_body wp, added := true }
  | .Key4 =>
    { a with world := match polyRes with | some p => a.world.add_body p | none => a.world,
             added := true }
  | .Key5 => { a with world := a.world.add_attractor, added := true }
  | .Down => { a with world := a.world.change_ptm_ratio (1 - zoom_speed) }
  | .Up => { a with world := a.world.change_ptm_ratio (1 + zoom_speed) }
  | .A => { a with offset_x := a.offset_x + scroll_speed }
  | .W => { a with offset_y := a.offset_y + scroll_speed }
  | .D => { a with offset_x := a.offset_x - scroll_speed }
  | .S => { a with offset_y := a.offset_y - scroll_speed }
  | .R => { a with offset_x := 0, offset_y := 0 }
  | .U =>
    if a.state.simulation = .Paused ∧ a.state.atomic_update_allowed now = true then
      { a with world := a.world.update,
               state := { a.state with
                 nr_of_updates := (a.state.nr_of_updates + 1) % 2 ^ 32,
                 update_instant := now } }
    else a
  | .T =>
    if a.state.debug_toggable now = true then
      { a with state := { a.state with
          debug_information := a.state.debug_information.toggle, debug_instant := now } }
    else a
  | .G =>
    if a.state.debug_toggable now = true then
      { a with state := { a.state with
          debug_grid := a.state.debug_grid.toggle, debug_instant := now } }
    else a
  | .C =>
    if a.state.debug_toggable now = true then
      { a with state := { a.state with
          collision_points := a.state.collision_points.toggle, debug_instant := now } }
    else a
  | .H =>
    if a.state.debug_toggable now = true then
      { a with state := { a.state with
          hitboxes := a.state.hitboxes.toggle, debug_instant := now } }
    else a
  | .Escape => a

/-- Source `UserController::handle_current_actions` (controller.rs):
dispatch every active action in order, then reset the spawn cooldown of
`SimulationState` when a spawn action ran. -/
def UserController.handle_current_actions (c : UserController) (world : World)
    (offset_x offset_y : ℚ) (state : SimulationState) (now : ℚ) (wp : Body)
    (polyRes : Option Body) : HandleAcc :=
  if c.active_actions = [] then ⟨world, offset_x, offset_y, state, false⟩
  else
    let a := c.active_actions.foldl
      (handleAction c.scroll_speed c.zoom_speed wp polyRes now)
      ⟨world, offset_x, offset_y, state, false⟩
    if a.added then { a with state := { a.state with spawn_instant := now } } else a

/-- The mutable state of the main loop of `main` (main.rs): world,
simulation state, controller, spawners and camera offsets. -/
structure Sim where
  world : World
  state : SimulationState
  controller : UserController
  spawners : List BodySpawner
  offset_x : ℚ
  offset_y : ℚ
deriving DecidableEq

/-- External inputs of one frame: the frame timestamp, the keys currently
held, the mouse world position, the rng jitter draws consumed by the
spawner loop (one pair per spawner, in order), the external polygon
constructor result, and the last update duration shown by the overlay. -/
structure FrameInput where
  now : ℚ
  keysDown : List KeyCode
  wp : Body
  rng : List (ℚ × ℚ)
  polyRes : Option Body
  update_time : ℚ
deriving DecidableEq

/-- Frame step 1 (main.rs lines 65-69): apply a physics step when the tick
cadence has elapsed and the mode is Running. -/
def autoStep (s : Sim) (now : ℚ) : Sim :=
  if s.state.update_required now = true ∧ s.state.simulation = .Running then
    { s with world := s.world.update,
             state := { s.state with
               nr_of_updates := (s.state.nr_of_updates + 1) % 2 ^ 32,
               tick_instant := now } }
  else s

/-- The spawner polling loop (main.rs lines 72-77): for each spawner in
order, when it is eligible, spawn (the panic inside `spawn` propagates as
`none`), insert the body into the world and reset the spawner timer. -/
def pollSpawners (now : ℚ) :
    List BodySpawner → List (ℚ × ℚ) → World → Option (List BodySpawner × World)
  | [], _, w => some ([], w)
  | sp :: rest, rng, w =>
    let r := rng.headD (0, 0)
    if sp.is_spawnable now = true then
      match sp.spawn r.1 r.2 with
      | some (b, sp1) =>
        match pollSpawners now rest rng.tail (w.add_body b) with
        | some (rest1, w1) => some ({ sp1 with timer := now } :: rest1, w1)
        | none => none
      | none => none
    else
      match pollSpawners now rest rng.tail w with
      | some (rest1, w1) => some (sp :: rest1, w1)
      | none => none

/-- Frame step 2 (main.rs lines 71-78): spawner polling runs only while the
mode is Running. -/
def spawnerStep (s : Sim) (rng : List (ℚ × ℚ)) (now : ℚ) : Option Sim :=
  if s.state.simulation = .Running then
    match pollSpawners now s.spawners rng s.world with
    | some (sps, w) => some { s with spawners := sps, world := w }
    | none => none
  else some s

/-- Frame step 3 (main.rs lines 80-83): debounced pause toggle. -/
def pauseStep (s : Sim) (keysDown : List KeyCode) (now : ℚ) : Sim :=
  if s.state.is_pausable now = true ∧ UserController.user_paused keysDown = true then
    { s with state := { s.state with
        simulation := s.state.simulation.toggle, pause_instant := now } }
  else s

/-- Frame step 4 (main.rs line 85): sample held keys into active actions. -/
def detectStep (s : Sim) (keysDown : List KeyCode) (now : ℚ) : Sim :=
  { s with controller := s.controller.detect_current_actions keysDown now }

/-- Frame step 5 (main.rs lines 87-89): dispatch the active actions, gated
by a non-empty action list and by the spawn cooldown of
`SimulationState`. -/
def dispatchStep (s : Sim) (inp : FrameInput) : Sim :=
  if s.controller.active_actions ≠ [] ∧ s.state.is_spawnable inp.now = true then
    let a := s.controller.handle_current_actions s.world s.offset_x s.offset_y
      s.state inp.now inp.wp inp.polyRes
    { s with world := a.world, offset_x := a.offset_x, offset_y := a.offset_y,
             state := a.state }
  else s

/-- Frame step 6 (main.rs lines 93-104 and renderer.rs
`render_info_and_benchmark`): when the information overlay is visible the
overlay raises `max_update_duration` to the observed update duration. -/
def overlayStep (s : Sim) (update_time : ℚ) : Sim :=
  if s.state.debug_information = .Visible then
    { s with state := { s.state with
        max_update_duration := max s.state.max_update_duration update_time } }
  else s

/-- One iteration of the main loop (main.rs lines 64-107), all wall-clock
samples of the frame taken at the single timestamp `inp.now`; `none`
models the spawn panic. -/
def frame (s : Sim) (inp : FrameInput) : Option Sim :=
  match spawnerStep (autoStep s inp.now) inp.rng inp.now with
  | none => none
  | some s2 =>
    some (overlayStep
      (dispatchStep (detectStep (pauseStep s2 inp.keysDown inp.now) inp.keysDown inp.now) inp)
      inp.update_time)

/-- A run of one spawner under the polling discipline of main.rs lines
73-76: at each tick timestamp (paired with its two rng draws), emit exactly
when `is_spawnable` holds, then reset the spawner timer; the emitted bodies
are collected in order.  The `none` branch of `spawn` is unreachable here
because `spawn` is only called under the `is_spawnable` guard (see
`spawn_isSome_of_spawnable`); it is skipped. -/
def pollTrace : BodySpawner → List (ℚ × ℚ × ℚ) → BodySpawner × List Body
  | sp, [] => (sp, [])
  | sp, (now, rx, ry) :: ticks =>
    if sp.is_spawnable now = true then
      match sp.spawn rx ry with
      | some (b, sp1) =>
        let res := pollTrace { sp1 with timer := now } ticks
        (res.1, b :: res.2)
      | none => pollTrace sp ticks
    else pollTrace sp ticks

/-- The four debug-visibility flags of `SimulationState`, bundled. -/
def debugFlags (s : SimulationState) : ShowDebug × ShowDebug × ShowDebug × ShowDebug :=
  (s.debug_information, s.debug_grid, s.collision_points, s.hitboxes)

/-- How many of the four debug flags differ between two states. -/
def changedDebugCount (s1 s2 : SimulationState) : ℕ :=
  (if s1.debug_information = s2.debug_information then 0 else 1) +
  (if s1.debug_grid = s2.debug_grid then 0 else 1) +
  (if s1.collision_points = s2.collision_points then 0 else 1) +
  (if s1.hitboxes = s2.hitboxes then 0 else 1)

/-- A maximally eager tick schedule: starting right after `t0`, one tick
every `p` seconds (used to exhibit complete spawner runs). -/
def eagerTicks (t0 p : ℚ) : ℕ → List (ℚ × ℚ × ℚ)
  | 0 => []
  | n + 1 => (t0 + p, 0, 0) :: eagerTicks (t0 + p) p n

/-- A concrete loop state around a given simulation state and spawner list,
mirroring the setup of `main` (world from the scene, fresh controller). -/
def demoSim (st : SimulationState) (sps : List BodySpawner) : Sim :=
  { world := ⟨[], 0, 0, 1⟩
  , state := st
  , controller := UserController.new 10 (1 / 100) 0
  , spawners := sps
  , offset_x := 0
  , offset_y := 0 }

/-- The five spawn-action keys of the dispatch loop — exactly the arms of
the source match that set `added = true`. -/
def isSpawnAction : KeyCode → Bool
  | .Key1 => true
  | .Key2 => true
  | .Key3 => true
  | .Key4 => true
  | .Key5 => true
  | _ => false

/-! Helper lemmas about the gating queries and the spawner machinery. -/

theorem spawn_isSome_of_spawnable (sp : BodySpawner) (now rx ry : ℚ)
    (h : sp.is_spawnable now = true) : (sp.spawn rx ry).isSome = true := by
  cases hT : sp.t with
  | Single => simp [BodySpawner.spawn, hT]
  | Pipeline =>
    rw [BodySpawner.is_spawnable, hT] at h
    have hne : sp.body_pipeline ≠ [] := by
      intro hnil
      rw [hnil] at h
      simp at h
    have hl : sp.body_pipeline.getLast? = some (sp.body_pipeline.getLast hne) :=
      List.getLast?_eq_getLast sp.body_pipeline hne
    simp [BodySpawner.spawn, hT, hl]

theorem pollSpawners_isSome (now : ℚ) :
    ∀ (sps : List BodySpawner) (rng : List (ℚ × ℚ)) (w : World),
      (pollSpawners now sps rng w).isSome = true := by
  intro sps
  induction sps with
  | nil => intro rng w; rfl
  | cons sp rest ih =>
    intro rng w
    rw [pollSpawners]
    by_cases h : sp.is_spawnable now = true
    · rw [if_pos h]
      have hs := spawn_isSome_of_spawnable sp now (rng.headD (0, 0)).1 (rng.headD (0, 0)).2 h
      cases hsp : sp.spawn (rng.headD (0, 0)).1 (rng.headD (0, 0)).2 with
      | none => rw [hsp] at hs; simp at hs
      | some p =>
        obtain ⟨b, sp1⟩ := p
        have hr := ih rng.tail (w.add_body b)
        rw [Option.isSome_iff_exists] at hr
        obtain ⟨⟨rest1, w1⟩, hq⟩ := hr
        simp [hq]
    · rw [if_neg h]
      have hr := ih rng.tail w
      rw [Option.isSome_iff_exists] at hr
      obtain ⟨⟨rest1, w1⟩, hq⟩ := hr
      simp [hq]

theorem spawnerStep_isSome (s : Sim) (rng : List (ℚ × ℚ)) (now : ℚ) :
    (spawnerStep s rng now).isSome = true := by
  rw [spawnerStep]
  split
  · have h := pollSpawners_isSome now s.spawners rng s.world
    cases hpoll : pollSpawners now s.spawners rng s.world with
    | none => rw [hpoll] at h; simp at h
    | some q => simp
  · rfl

theorem frame_isSome (s : Sim) (inp : FrameInput) : (frame s inp).isSome = true := by
  rw [frame]
  have h := spawnerStep_isSome (autoStep s inp.now) inp.rng inp.now
  cases hst : spawnerStep (autoStep s inp.now) inp.rng inp.now with
  | none => rw [hst] at h; simp at h
  | some s2 => simp

/-! Claim theorems. -/

/-- C1: for every cooldown gate of `SimulationState` (pause toggling,
spawn permission, debug toggling, tick cadence, manual update) and for a
the timer of a spawner: with the last-fired timestamp of the gate reset to `t0`
(as every firing site in main.rs / controller.rs does on success), the
gating query returns `false` at every later time `t1` with `t1 - t0`
strictly below the interval of the gate. -/
theorem C1_cooldown_exclusion (st : SimulationState) (sp : BodySpawner) (t0 t1 : ℚ)
    (hlt : t0 < t1) :
    (st.pause_instant = t0 → t1 - t0 < st.pause_timeout → st.is_pausable t1 = false) ∧
    (st.spawn_instant = t0 → t1 - t0 < st.spawn_timeout → st.is_spawnable t1 = false) ∧
    (st.debug_instant = t0 → t1 - t0 < st.debug_timeout → st.debug_toggable t1 = false) ∧
    (st.tick_instant = t0 → t1 - t0 < st.tick_timeout → st.update_required t1 = false) ∧
    (st.update_instant = t0 → t1 - t0 < st.update_timeout →
      st.atomic_update_allowed t1 = false) ∧
    (sp.timer = t0 → t1 - t0 < sp.period → sp.is_spawnable t1 = false) := by
  refine ⟨?_, ?_, ?_, ?_, ?_, ?_⟩ <;> intro h1 h2
  · simp only [SimulationState.is_pausable, h1, decide_eq_false_iff_not, not_le]; linarith
  · simp only [SimulationState.is_spawnable, h1, decide_eq_false_iff_not, not_le]; linarith
  · simp only [SimulationState.debug_toggable, h1, decide_eq_false_iff_not, not_le]; linarith
  · simp only [SimulationState.update_required, h1, decide_eq_false_iff_not, not_le]; linarith
  · simp only [SimulationState.atomic_update_allowed, h1, decide_eq_false_iff_not, not_le]
    linarith
  · have hfalse : decide (sp.period ≤ t1 - sp.timer) = false := by
      simp only [decide_eq_false_iff_not, not_le, h1]; linarith
    cases hT : sp.t with
    | Single => simp [BodySpawner.is_spawnable, hT, hfalse]
    | Pipeline => simp [BodySpawner.is_spawnable, hT, hfalse]

/-- Witness for `C1_cooldown_exclusion`: default state and spawner reset at
time 0, re-queried at time 1/100 (below every default interval). -/
theorem C1_cooldown_exclusion_witness :
    (0 : ℚ) < 1 / 100 ∧
    (SimulationState.default 0).is_pausable (1 / 100) = false ∧
    (BodySpawner.mkDefault 0).is_spawnable (1 / 100) = false :=
  ⟨by norm_num,
   (C1_cooldown_exclusion (SimulationState.default 0) (BodySpawner.mkDefault 0) 0 (1 / 100)
      (by norm_num)).1 rfl (by norm_num [SimulationState.default]),
   (C1_cooldown_exclusion (SimulationState.default 0) (BodySpawner.mkDefault 0) 0 (1 / 100)
      (by norm_num)).2.2.2.2.2 rfl (by norm_num [BodySpawner.mkDefault])⟩

theorem user_paused_escape : UserController.user_paused [KeyCode.Escape] = true := by
  decide

theorem pauseStep_gate_closed {s : Sim} {keys : List KeyCode} {now : ℚ}
    (h : s.state.is_pausable now = false) : pauseStep s keys now = s := by
  rw [pauseStep, if_neg]
  rintro ⟨h1, _⟩
  rw [h] at h1
  exact Bool.false_ne_true h1

theorem pauseStep_fires {s : Sim} {keys : List KeyCode} {now : ℚ}
    (h : s.state.is_pausable now = true) (hk : UserController.user_paused keys = true) :
    pauseStep s keys now =
      { s with state := { s.state with
          simulation := s.state.simulation.toggle, pause_instant := now } } := by
  rw [pauseStep, if_pos ⟨h, hk⟩]

theorem demoSim_gate_closed_at_0 :
    (demoSim (SimulationState.default 0) []).state.is_pausable 0 = false := by
  norm_num [demoSim, SimulationState.default, SimulationState.is_pausable]

theorem demoSim_gate_closed_at_tenth :
    (demoSim (SimulationState.default 0) []).state.is_pausable (1 / 10) = false := by
  norm_num [demoSim, SimulationState.default, SimulationState.is_pausable]

theorem demoSim_gate_open_at_26 :
    (demoSim (SimulationState.default 0) []).state.is_pausable (13 / 50) = true := by
  norm_num [demoSim, SimulationState.default, SimulationState.is_pausable]

/-- C2 counterexample: with the state built by `Default` at construction
time 0 (pause interval 0.25 s, `pause_instant` = 0, mode Running), the
pause request at t = 0 does NOT toggle the mode to Paused: the gate starts
closed (elapsed 0 < 0.25), so the pause handling of the frame leaves the mode
Running, contradicting the claimed first toggle. -/
theorem C2_pause_scenario_counterexample :
    (pauseStep (demoSim (SimulationState.default 0) []) [KeyCode.Escape] 0).state.simulation
        ≠ SimulationMode.Paused ∧
    (pauseStep (demoSim (SimulationState.default 0) []) [KeyCode.Escape] 0).state.simulation
        = SimulationMode.Running := by
  rw [pauseStep_gate_closed demoSim_gate_closed_at_0]
  exact ⟨fun h => SimulationMode.noConfusion h, rfl⟩

/-- C2 amended: same scenario, but the gate starts closed because
`Default` initializes `pause_instant` to the construction time: the pause
request at t = 0 is a no-op (mode stays Running), the request at t = 0.1
is a no-op (mode still Running), and the request at t = 0.26 toggles the
mode to Paused and resets the timestamp of the gate. -/
theorem C2_pause_scenario_amended :
    (pauseStep (demoSim (SimulationState.default 0) []) [KeyCode.Escape] 0).state.simulation
        = SimulationMode.Running ∧
    (pauseStep (pauseStep (demoSim (SimulationState.default 0) []) [KeyCode.Escape] 0)
        [KeyCode.Escape] (1 / 10)).state.simulation = SimulationMode.Running ∧
    (pauseStep (pauseStep (pauseStep (demoSim (SimulationState.default 0) [])
        [KeyCode.Escape] 0) [KeyCode.Escape] (1 / 10))
        [KeyCode.Escape] (13 / 50)).state.simulation = SimulationMode.Paused ∧
    (pauseStep (pauseStep (pauseStep (demoSim (SimulationState.default 0) [])
        [KeyCode.Escape] 0) [KeyCode.Escape] (1 / 10))
        [KeyCode.Escape] (13 / 50)).state.pause_instant = 13 / 50 := by
  rw [pauseStep_gate_closed demoSim_gate_closed_at_0,
      pauseStep_gate_closed demoSim_gate_closed_at_tenth,
      pauseStep_fires demoSim_gate_open_at_26 user_paused_escape]
  exact ⟨rfl, rfl, rfl, rfl⟩

/-- C8 counterexample: `update_required` does not look at the mode — in a
paused state whose tick cadence has elapsed it still returns `true`, so
the claim "returns true only if the simulation mode is Running" is false
of the query itself (the Running check lives in the caller, main.rs
line 65). -/
theorem C8_update_required_counterexample :
    ({ SimulationState.default 0 with
        simulation := .Paused } : SimulationState).update_required 1 = true ∧
    ({ SimulationState.default 0 with
        simulation := .Paused } : SimulationState).simulation ≠ SimulationMode.Running := by
  constructor
  · norm_num [SimulationState.update_required, SimulationState.default]
  · exact fun h => SimulationMode.noConfusion h

/-- C8 amended: `update_required` is a pure query (a function of the state
and the sampled time, mutating nothing, matching the `&self` receiver)
that returns `true` iff the tick cadence interval has elapsed since the
last applied step, independently of the mode; the main loop applies the
automatic physics step exactly when `update_required` holds AND the mode
is Running. -/
theorem C8_update_required_characterization (s : Sim) (st : SimulationState) (now : ℚ) :
    (st.update_required now = true ↔ st.tick_timeout ≤ now - st.tick_instant) ∧
    ((autoStep s now).world.steps ≠ s.world.steps ↔
      (s.state.update_required now = true ∧ s.state.simulation = .Running)) := by
  constructor
  · simp [SimulationState.update_required]
  · rw [autoStep]
    split_ifs with h
    · show s.world.steps + 1 ≠ s.world.steps ↔ _
      constructor
      · intro _; exact h
      · intro _; omega
    · constructor
      · intro hne; exact absurd rfl hne
      · intro hc; exact absurd hc h

/-- C9: when `is_spawnable` has just returned `true` on an unchanged
spawner, `spawn` completes without fault — the panic branch on the
Pipeline pop is unreachable under the eligibility precondition — and the
polling loop of main.rs, which calls `spawn` only under that guard, never
reaches a fault on any spawner list. -/
theorem C9_spawn_no_fault :
    (∀ (sp : BodySpawner) (now rx ry : ℚ), sp.is_spawnable now = true →
      (sp.spawn rx ry).isSome = true) ∧
    (∀ (now : ℚ) (sps : List BodySpawner) (rng : List (ℚ × ℚ)) (w : World),
      (pollSpawners now sps rng w).isSome = true) :=
  ⟨spawn_isSome_of_spawnable, pollSpawners_isSome⟩

theorem single_not_spawnable_of_exhausted (sp : BodySpawner) (hT : sp.t = .Single)
    (h : ¬ sp.count < sp.amount) : ∀ t : ℚ, sp.is_spawnable t = false := by
  intro t
  simp [BodySpawner.is_spawnable, hT, h]

theorem single_spawnable_later (sp : BodySpawner) (hT : sp.t = .Single)
    (h : sp.count < sp.amount) : sp.is_spawnable (sp.timer + max sp.period 0) = true := by
  have harith : sp.timer + max sp.period 0 - sp.timer = max sp.period 0 := by ring
  simp only [BodySpawner.is_spawnable, hT, harith, Bool.and_eq_true, decide_eq_true_eq]
  exact ⟨h, le_max_left _ _⟩

theorem pipeline_not_spawnable_of_empty (sp : BodySpawner) (hT : sp.t = .Pipeline)
    (h : sp.body_pipeline = []) : ∀ t : ℚ, sp.is_spawnable t = false := by
  intro t
  simp [BodySpawner.is_spawnable, hT, h]

theorem pipeline_spawnable_later (sp : BodySpawner) (hT : sp.t = .Pipeline)
    (h : sp.body_pipeline ≠ []) : sp.is_spawnable (sp.timer + max sp.period 0) = true := by
  have harith : sp.timer + max sp.period 0 - sp.timer = max sp.period 0 := by ring
  simp only [BodySpawner.is_spawnable, hT, harith, Bool.and_eq_true, decide_eq_true_eq,
    Bool.not_eq_true', List.isEmpty_eq_false]
  exact ⟨h, le_max_left _ _⟩

theorem pollTrace_single_inv (ticks : List (ℚ × ℚ × ℚ)) :
    ∀ (sp : BodySpawner), sp.t = .Single → sp.count ≤ sp.amount → sp.amount < 2 ^ 8 →
      (pollTrace sp ticks).1.t = .Single ∧
      (pollTrace sp ticks).1.amount = sp.amount ∧
      (pollTrace sp ticks).1.period = sp.period ∧
      (pollTrace sp ticks).1.count = sp.count + (pollTrace sp ticks).2.length ∧
      (pollTrace sp ticks).1.count ≤ sp.amount := by
  induction ticks with
  | nil =>
    intro sp hT hc ha
    exact ⟨hT, rfl, rfl, by simp [pollTrace], hc⟩
  | cons tick rest ih =>
    obtain ⟨now, rx, ry⟩ := tick
    intro sp hT hc ha
    by_cases h : sp.is_spawnable now = true
    · have hlt : sp.count < sp.amount := by
        rw [BodySpawner.is_spawnable, hT] at h
        simp only [Bool.and_eq_true, decide_eq_true_eq] at h
        exact h.1
      have hmod : (sp.count + 1) % 2 ^ 8 = sp.count + 1 := Nat.mod_eq_of_lt (by omega)
      simp only [pollTrace, if_pos h, BodySpawner.spawn, hT]
      have hih := ih
        { body := sp.body, body_pipeline := sp.body_pipeline, amount := sp.amount,
          count := (sp.count + 1) % 2 ^ 8, timer := now, period := sp.period,
          t := .Single, offset := sp.offset }
        rfl (by simp only [hmod]; omega) ha
      refine ⟨hih.1, hih.2.1, hih.2.2.1, ?_, ?_⟩
      · rw [hih.2.2.2.1]
        simp only [hmod, List.length_cons]
        omega
      · exact hih.2.2.2.2
    · simp only [pollTrace, if_neg h]
      exact ih sp hT hc ha

theorem pollTrace_pipeline_inv (ticks : List (ℚ × ℚ × ℚ)) :
    ∀ (sp : BodySpawner), sp.t = .Pipeline →
      (pollTrace sp ticks).1.t = .Pipeline ∧
      (pollTrace sp ticks).1.period = sp.period ∧
      (pollTrace sp ticks).1.body_pipeline ++ ((pollTrace sp ticks).2).reverse
        = sp.body_pipeline := by
  induction ticks with
  | nil =>
    intro sp hT
    exact ⟨hT, rfl, by simp [pollTrace]⟩
  | cons tick rest ih =>
    obtain ⟨now, rx, ry⟩ := tick
    intro sp hT
    by_cases h : sp.is_spawnable now = true
    · have hne : sp.body_pipeline ≠ [] := by
        rw [BodySpawner.is_spawnable, hT] at h
        simp only [Bool.and_eq_true, Bool.not_eq_true', List.isEmpty_eq_false] at h
        exact h.1
      rcases List.eq_nil_or_concat sp.body_pipeline with h0 | ⟨l, b, hlb⟩
      · exact absurd h0 hne
      rw [List.concat_eq_append] at hlb
      have hgl : sp.body_pipeline.getLast? = some b := by
        rw [hlb]; exact List.getLast?_concat _
      have hdl : sp.body_pipeline.dropLast = l := by
        rw [hlb]; exact List.dropLast_concat
      simp only [pollTrace, if_pos h, BodySpawner.spawn, hT, hgl]
      have hih := ih
        { body := sp.body, body_pipeline := sp.body_pipeline.dropLast, amount := sp.amount,
          count := sp.count, timer := now, period := sp.period,
          t := .Pipeline, offset := sp.offset } rfl
      refine ⟨hih.1, hih.2.1, ?_⟩
      rw [List.reverse_cons, ← List.append_assoc, hih.2.2]
      show sp.body_pipeline.dropLast ++ [b] = sp.body_pipeline
      rw [hdl, ← hlb]
    · simp only [pollTrace, if_neg h]
      exact ih sp hT

theorem pollTrace_eager_single :
    ∀ (n : ℕ) (sp : BodySpawner), sp.t = .Single →
      sp.count + n ≤ sp.amount → sp.amount < 2 ^ 8 →
      (pollTrace sp (eagerTicks sp.timer (max sp.period 0) n)).2.length = n := by
  intro n
  induction n with
  | zero => intro sp hT hcn ha; simp [eagerTicks, pollTrace]
  | succ n ihn =>
    intro sp hT hcn ha
    have hel : sp.is_spawnable (sp.timer + max sp.period 0) = true :=
      single_spawnable_later sp hT (by omega)
    have hmod : (sp.count + 1) % 2 ^ 8 = sp.count + 1 := Nat.mod_eq_of_lt (by omega)
    rw [eagerTicks]
    simp only [pollTrace, if_pos hel, BodySpawner.spawn, hT]
    have hih := ihn
      { body := sp.body, body_pipeline := sp.body_pipeline, amount := sp.amount,
        count := (sp.count + 1) % 2 ^ 8, timer := sp.timer + max sp.period 0,
        period := sp.period, t := .Single, offset := sp.offset }
      rfl (by simp only [hmod]; omega) ha
    simpa using hih

theorem pollTrace_eager_pipeline :
    ∀ (n : ℕ) (sp : BodySpawner), sp.t = .Pipeline → sp.body_pipeline.length = n →
      (pollTrace sp (eagerTicks sp.timer (max sp.period 0) n)).2.length = n := by
  intro n
  induction n with
  | zero => intro sp hT hn; simp [eagerTicks, pollTrace]
  | succ n ihn =>
    intro sp hT hn
    have hne : sp.body_pipeline ≠ [] := by
      intro h0; rw [h0] at hn; simp at hn
    have hel : sp.is_spawnable (sp.timer + max sp.period 0) = true :=
      pipeline_spawnable_later sp hT hne
    rcases List.eq_nil_or_concat sp.body_pipeline with h0 | ⟨l, b, hlb⟩
    · exact absurd h0 hne
    rw [List.concat_eq_append] at hlb
    have hgl : sp.body_pipeline.getLast? = some b := by
      rw [hlb]; exact List.getLast?_concat _
    rw [eagerTicks]
    simp only [pollTrace, if_pos hel, BodySpawner.spawn, hT, hgl]
    have hlen : sp.body_pipeline.dropLast.length = n := by
      rw [hlb, List.dropLast_concat]
      have := hn
      rw [hlb] at this
      simpa using this
    have hih := ihn
      { body := sp.body, body_pipeline := sp.body_pipeline.dropLast, amount := sp.amount,
        count := sp.count, timer := sp.timer + max sp.period 0,
        period := sp.period, t := .Pipeline, offset := sp.offset }
      rfl hlen
    simpa using hih

/-- C4: a SingleType spawner with target count `amount` = K: over every
polling trace in which each emission happens under an `is_spawnable`
check, at most K entities are emitted; once K have been emitted the
spawner is never eligible again at any time (exhaustion is permanent —
nothing resets `count`); while fewer than K have been emitted it can
become eligible again; and a complete trace emitting exactly K exists. -/
theorem C4_single_spawner (sp : BodySpawner) (ticks : List (ℚ × ℚ × ℚ))
    (hT : sp.t = .Single) (hc : sp.count = 0) (ha : sp.amount < 2 ^ 8) :
    (pollTrace sp ticks).2.length ≤ sp.amount ∧
    ((pollTrace sp ticks).2.length = sp.amount →
      ∀ t : ℚ, (pollTrace sp ticks).1.is_spawnable t = false) ∧
    ((pollTrace sp ticks).1.count < sp.amount →
      ∃ t : ℚ, (pollTrace sp ticks).1.is_spawnable t = true) ∧
    (∃ full : List (ℚ × ℚ × ℚ), (pollTrace sp full).2.length = sp.amount) := by
  have hinv := pollTrace_single_inv ticks sp hT (by omega) ha
  obtain ⟨hT1, hAm, hPer, hCnt, hLe⟩ := hinv
  refine ⟨by omega, ?_, ?_, ?_⟩
  · intro hfull t
    refine single_not_spawnable_of_exhausted _ hT1 ?_ t
    omega
  · intro hlt
    refine ⟨(pollTrace sp ticks).1.timer + max (pollTrace sp ticks).1.period 0, ?_⟩
    exact single_spawnable_later _ hT1 (by omega)
  · exact ⟨eagerTicks sp.timer (max sp.period 0) sp.amount,
      pollTrace_eager_single sp.amount sp hT (by omega) ha⟩

/-- Witness for `C4_single_spawner`: the spawner of the spec scenario
(target 3, offset 0, cooldown 0.1 s) run over the ticks 0.1, 0.2, 0.3,
0.4 — it emits exactly 3 bodies. -/
theorem C4_single_spawner_witness :
    (BodySpawner.new_single_type ⟨0, 0⟩ 3 10 0 0).t = SpawnerType.Single ∧
    (BodySpawner.new_single_type ⟨0, 0⟩ 3 10 0 0).count = 0 ∧
    (BodySpawner.new_single_type ⟨0, 0⟩ 3 10 0 0).amount < 2 ^ 8 ∧
    (pollTrace (BodySpawner.new_single_type ⟨0, 0⟩ 3 10 0 0)
      [(1/10, 0, 0), (2/10, 0, 0), (3/10, 0, 0), (4/10, 0, 0)]).2.length
      ≤ (BodySpawner.new_single_type ⟨0, 0⟩ 3 10 0 0).amount :=
  ⟨rfl, rfl, by norm_num [BodySpawner.new_single_type, BodySpawner.mkDefault],
   (C4_single_spawner (BodySpawner.new_single_type ⟨0, 0⟩ 3 10 0 0)
      [(1/10, 0, 0), (2/10, 0, 0), (3/10, 0, 0), (4/10, 0, 0)] rfl rfl
      (by norm_num [BodySpawner.new_single_type, BodySpawner.mkDefault])).1⟩

/-- C5: a Pipeline spawner with an authored sequence `L`: every polling
trace removes entities from the tail only (the remaining sequence plus the
reverse of the emitted sequence is always exactly `L`), so the emitted
sequence is a front segment of `L.reverse` — reverse-of-authoring order;
after all `L.length` emissions the sequence is empty and the spawner is
never eligible again at any time; and a complete trace emitting exactly
`L.reverse` exists. -/
theorem C5_pipeline_spawner (sp : BodySpawner) (ticks : List (ℚ × ℚ × ℚ))
    (hT : sp.t = .Pipeline) :
    ((pollTrace sp ticks).1.body_pipeline ++ ((pollTrace sp ticks).2).reverse
      = sp.body_pipeline) ∧
    (∃ rest : List Body, sp.body_pipeline.reverse = (pollTrace sp ticks).2 ++ rest) ∧
    ((pollTrace sp ticks).2.length = sp.body_pipeline.length →
      (pollTrace sp ticks).1.body_pipeline = [] ∧
      ∀ t : ℚ, (pollTrace sp ticks).1.is_spawnable t = false) ∧
    (∃ full : List (ℚ × ℚ × ℚ), (pollTrace sp full).2 = sp.body_pipeline.reverse) := by
  obtain ⟨hT1, hPer, hApp⟩ := pollTrace_pipeline_inv ticks sp hT
  have hsplit : ∀ tks : List (ℚ × ℚ × ℚ),
      (pollTrace sp tks).2.length = sp.body_pipeline.length →
      (pollTrace sp tks).1.body_pipeline = [] ∧
      (pollTrace sp tks).2 = sp.body_pipeline.reverse := by
    intro tks hfull
    obtain ⟨_, _, hApp2⟩ := pollTrace_pipeline_inv tks sp hT
    have hlen : (pollTrace sp tks).1.body_pipeline.length
        + (pollTrace sp tks).2.length = sp.body_pipeline.length := by
      have := congrArg List.length hApp2
      simpa using this
    have hnil : (pollTrace sp tks).1.body_pipeline = [] :=
      List.length_eq_zero.mp (by omega)
    rw [hnil, List.nil_append] at hApp2
    exact ⟨hnil, by rw [← hApp2, List.reverse_reverse]⟩
  refine ⟨hApp, ?_, ?_, ?_⟩
  · refine ⟨(pollTrace sp ticks).1.body_pipeline.reverse, ?_⟩
    rw [← hApp]
    simp
  · intro hfull
    obtain ⟨hnil, _⟩ := hsplit ticks hfull
    exact ⟨hnil, pipeline_not_spawnable_of_empty _ hT1 hnil⟩
  · refine ⟨eagerTicks sp.timer (max sp.period 0) sp.body_pipeline.length, ?_⟩
    exact (hsplit _ (pollTrace_eager_pipeline sp.body_pipeline.length sp hT rfl)).2

/-- Witness for `C5_pipeline_spawner`: a pipeline of three bodies emits
them tail-first, i.e. in reverse authoring order. -/
theorem C5_pipeline_spawner_witness :
    (BodySpawner.new_pipeline [⟨1, 1⟩, ⟨2, 2⟩, ⟨3, 3⟩] 10 0).t = SpawnerType.Pipeline ∧
    (pollTrace (BodySpawner.new_pipeline [⟨1, 1⟩, ⟨2, 2⟩, ⟨3, 3⟩] 10 0)
        [(1/10, 0, 0), (2/10, 0, 0), (3/10, 0, 0)]).1.body_pipeline ++
      ((pollTrace (BodySpawner.new_pipeline [⟨1, 1⟩, ⟨2, 2⟩, ⟨3, 3⟩] 10 0)
        [(1/10, 0, 0), (2/10, 0, 0), (3/10, 0, 0)]).2).reverse
      = (BodySpawner.new_pipeline [⟨1, 1⟩, ⟨2, 2⟩, ⟨3, 3⟩] 10 0).body_pipeline :=
  ⟨rfl,
   (C5_pipeline_spawner (BodySpawner.new_pipeline [⟨1, 1⟩, ⟨2, 2⟩, ⟨3, 3⟩] 10 0)
      [(1/10, 0, 0), (2/10, 0, 0), (3/10, 0, 0)] rfl).1⟩

/-- Witness for `C9_spawn_no_fault`: a single-type spawner that is
eligible at time 1 spawns successfully. -/
theorem C9_spawn_no_fault_witness :
    (BodySpawner.new_single_type ⟨0, 0⟩ 1 1 0 0).is_spawnable 1 = true ∧
    ((BodySpawner.new_single_type ⟨0, 0⟩ 1 1 0 0).spawn 0 0).isSome = true := by
  have he : (BodySpawner.new_single_type ⟨0, 0⟩ 1 1 0 0).is_spawnable 1 = true := by
    norm_num [BodySpawner.new_single_type, BodySpawner.mkDefault, BodySpawner.is_spawnable]
  exact ⟨he, C9_spawn_no_fault.1 (BodySpawner.new_single_type ⟨0, 0⟩ 1 1 0 0) 1 0 0 he⟩

/-! Field-preservation lemmas for one dispatch action. -/

theorem handleAction_simulation (sc z : ℚ) (wp : Body) (pr : Option Body) (now : ℚ)
    (a : HandleAcc) (act : KeyCode) :
    (handleAction sc z wp pr now a act).state.simulation = a.state.simulation := by
  cases act <;> first
    | rfl
    | (simp only [handleAction]; split_ifs <;> rfl)

theorem handleAction_spawn_fields (sc z : ℚ) (wp : Body) (pr : Option Body) (now : ℚ)
    (a : HandleAcc) (act : KeyCode) :
    (handleAction sc z wp pr now a act).state.spawn_instant = a.state.spawn_instant ∧
    (handleAction sc z wp pr now a act).state.spawn_timeout = a.state.spawn_timeout := by
  cases act <;> first
    | exact ⟨rfl, rfl⟩
    | (simp only [handleAction]; split_ifs <;> exact ⟨rfl, rfl⟩)

theorem handleAction_update_timeout (sc z : ℚ) (wp : Body) (pr : Option Body) (now : ℚ)
    (a : HandleAcc) (act : KeyCode) :
    (handleAction sc z wp pr now a act).state.update_timeout = a.state.update_timeout := by
  cases act <;> first
    | rfl
    | (simp only [handleAction]; split_ifs <;> rfl)

theorem handleAction_update_instant_of_ne (sc z : ℚ) (wp : Body) (pr : Option Body)
    (now : ℚ) (a : HandleAcc) (act : KeyCode) (hne : act ≠ .U) :
    (handleAction sc z wp pr now a act).state.update_instant = a.state.update_instant := by
  cases act <;> first
    | exact absurd rfl hne
    | rfl
    | (simp only [handleAction]; split_ifs <;> rfl)

theorem handleAction_update_instant_cases (sc z : ℚ) (wp : Body) (pr : Option Body)
    (now : ℚ) (a : HandleAcc) (act : KeyCode) :
    (handleAction sc z wp pr now a act).state.update_instant = a.state.update_instant ∨
    (handleAction sc z wp pr now a act).state.update_instant = now := by
  cases act <;> first
    | exact Or.inl rfl
    | (simp only [handleAction]; split_ifs <;> first | exact Or.inl rfl | exact Or.inr rfl)

theorem handleAction_U_fires (sc z : ℚ) (wp : Body) (pr : Option Body) (now : ℚ)
    (a : HandleAcc) (hP : a.state.simulation = .Paused)
    (hA : a.state.atomic_update_allowed now = true) :
    (handleAction sc z wp pr now a .U).state.update_instant = now := by
  simp only [handleAction, if_pos (And.intro hP hA)]

theorem handleAction_U_stuck (sc z : ℚ) (wp : Body) (pr : Option Body) (now : ℚ)
    (a : HandleAcc)
    (h : ¬ (a.state.simulation = .Paused ∧ a.state.atomic_update_allowed now = true)) :
    handleAction sc z wp pr now a .U = a := by
  simp only [handleAction, if_neg h]

theorem handleAction_added (sc z : ℚ) (wp : Body) (pr : Option Body) (now : ℚ)
    (a : HandleAcc) (act : KeyCode) :
    (handleAction sc z wp pr now a act).added = (a.added || isSpawnAction act) := by
  cases act <;> first
    | (simp only [handleAction, isSpawnAction, Bool.or_false]; split_ifs <;> rfl)
    | simp [handleAction, isSpawnAction]

/-! Fold lemmas for the dispatch loop. -/

theorem handleFold_simulation (sc z : ℚ) (wp : Body) (pr : Option Body) (now : ℚ) :
    ∀ (l : List KeyCode) (a : HandleAcc),
      (l.foldl (handleAction sc z wp pr now) a).state.simulation = a.state.simulation := by
  intro l
  induction l with
  | nil => intro a; rfl
  | cons act l ih =>
    intro a
    rw [List.foldl_cons, ih, handleAction_simulation]

theorem handleFold_spawn_fields (sc z : ℚ) (wp : Body) (pr : Option Body) (now : ℚ) :
    ∀ (l : List KeyCode) (a : HandleAcc),
      (l.foldl (handleAction sc z wp pr now) a).state.spawn_instant
        = a.state.spawn_instant ∧
      (l.foldl (handleAction sc z wp pr now) a).state.spawn_timeout
        = a.state.spawn_timeout := by
  intro l
  induction l with
  | nil => intro a; exact ⟨rfl, rfl⟩
  | cons act l ih =>
    intro a
    rw [List.foldl_cons]
    obtain ⟨h1, h2⟩ := ih (handleAction sc z wp pr now a act)
    obtain ⟨h3, h4⟩ := handleAction_spawn_fields sc z wp pr now a act
    exact ⟨h1.trans h3, h2.trans h4⟩

theorem handleFold_update_timeout (sc z : ℚ) (wp : Body) (pr : Option Body) (now : ℚ) :
    ∀ (l : List KeyCode) (a : HandleAcc),
      (l.foldl (handleAction sc z wp pr now) a).state.update_timeout
        = a.state.update_timeout := by
  intro l
  induction l with
  | nil => intro a; rfl
  | cons act l ih =>
    intro a
    rw [List.foldl_cons, ih, handleAction_update_timeout]

theorem handleFold_added (sc z : ℚ) (wp : Body) (pr : Option Body) (now : ℚ) :
    ∀ (l : List KeyCode) (a : HandleAcc),
      (l.foldl (handleAction sc z wp pr now) a).added
        = (a.added || l.any isSpawnAction) := by
  intro l
  induction l with
  | nil => intro a; simp
  | cons act l ih =>
    intro a
    rw [List.foldl_cons, ih, handleAction_added, List.any_cons]
    simp [Bool.or_assoc]

theorem handleFold_update_instant_absorb (sc z : ℚ) (wp : Body) (pr : Option Body)
    (now : ℚ) :
    ∀ (l : List KeyCode) (a : HandleAcc), a.state.update_instant = now →
      (l.foldl (handleAction sc z wp pr now) a).state.update_instant = now := by
  intro l
  induction l with
  | nil => intro a h; exact h
  | cons act l ih =>
    intro a h
    rw [List.foldl_cons]
    refine ih _ ?_
    rcases handleAction_update_instant_cases sc z wp pr now a act with hc | hc
    · rw [hc, h]
    · exact hc

theorem handleFold_no_U (sc z : ℚ) (wp : Body) (pr : Option Body) (now : ℚ) :
    ∀ (l : List KeyCode) (a : HandleAcc), KeyCode.U ∉ l →
      (l.foldl (handleAction sc z wp pr now) a).state.update_instant
        = a.state.update_instant := by
  intro l
  induction l with
  | nil => intro a _; rfl
  | cons act l ih =>
    intro a hno
    rw [List.foldl_cons]
    have hact : act ≠ .U := by
      intro he; exact hno (he ▸ List.mem_cons_self act l)
    rw [ih _ (fun hm => hno (List.mem_cons_of_mem act hm)),
        handleAction_update_instant_of_ne sc z wp pr now a act hact]

theorem handleFold_not_paused (sc z : ℚ) (wp : Body) (pr : Option Body) (now : ℚ) :
    ∀ (l : List KeyCode) (a : HandleAcc), a.state.simulation ≠ .Paused →
      (l.foldl (handleAction sc z wp pr now) a).state.update_instant
        = a.state.update_instant := by
  intro l
  induction l with
  | nil => intro a _; rfl
  | cons act l ih =>
    intro a hP
    rw [List.foldl_cons]
    by_cases hact : act = .U
    · subst hact
      rw [handleAction_U_stuck sc z wp pr now a (fun hc => hP hc.1)]
      exact ih a hP
    · rw [ih _ (by rw [handleAction_simulation]; exact hP),
          handleAction_update_instant_of_ne sc z wp pr now a act hact]

theorem handleFold_not_allowed (sc z : ℚ) (wp : Body) (pr : Option Body) (now : ℚ) :
    ∀ (l : List KeyCode) (a : HandleAcc), a.state.atomic_update_allowed now = false →
      (l.foldl (handleAction sc z wp pr now) a).state.update_instant
        = a.state.update_instant := by
  intro l
  induction l with
  | nil => intro a _; rfl
  | cons act l ih =>
    intro a hA
    rw [List.foldl_cons]
    by_cases hact : act = .U
    · subst hact
      rw [handleAction_U_stuck sc z wp pr now a
        (fun hc => by rw [hA] at hc; exact Bool.false_ne_true hc.2)]
      exact ih a hA
    · have hpres := handleAction_update_instant_of_ne sc z wp pr now a act hact
      have htpres := handleAction_update_timeout sc z wp pr now a act
      rw [ih _ ?_, hpres]
      rw [SimulationState.atomic_update_allowed, hpres, htpres]
      rw [SimulationState.atomic_update_allowed] at hA
      exact hA

theorem handleFold_U_fires (sc z : ℚ) (wp : Body) (pr : Option Body) (now : ℚ) :
    ∀ (l : List KeyCode) (a : HandleAcc), a.state.simulation = .Paused →
      a.state.atomic_update_allowed now = true → KeyCode.U ∈ l →
      (l.foldl (handleAction sc z wp pr now) a).state.update_instant = now := by
  intro l
  induction l with
  | nil => intro a _ _ hm; exact absurd hm (List.not_mem_nil _)
  | cons act l ih =>
    intro a hP hA hm
    rw [List.foldl_cons]
    by_cases hact : act = .U
    · subst hact
      exact handleFold_update_instant_absorb sc z wp pr now l _
        (handleAction_U_fires sc z wp pr now a hP hA)
    · have hm2 : KeyCode.U ∈ l := by
        rcases List.mem_cons.mp hm with he | hl2
        · exact absurd he.symm hact
        · exact hl2
      have hpres := handleAction_update_instant_of_ne sc z wp pr now a act hact
      have htpres := handleAction_update_timeout sc z wp pr now a act
      refine ih _ ?_ ?_ hm2
      · rw [handleAction_simulation]; exact hP
      · rw [SimulationState.atomic_update_allowed, hpres, htpres]
        rw [SimulationState.atomic_update_allowed] at hA
        exact hA

/-! Per-stage preservation lemmas for the frame. -/

theorem autoStep_preserves (s : Sim) (now : ℚ) :
    (autoStep s now).controller = s.controller ∧
    (autoStep s now).spawners = s.spawners ∧
    (autoStep s now).offset_x = s.offset_x ∧
    (autoStep s now).offset_y = s.offset_y ∧
    (autoStep s now).state.simulation = s.state.simulation ∧
    (autoStep s now).state.pause_instant = s.state.pause_instant ∧
    (autoStep s now).state.pause_timeout = s.state.pause_timeout ∧
    (autoStep s now).state.spawn_instant = s.state.spawn_instant ∧
    (autoStep s now).state.spawn_timeout = s.state.spawn_timeout ∧
    (autoStep s now).state.update_instant = s.state.update_instant ∧
    (autoStep s now).state.update_timeout = s.state.update_timeout := by
  rw [autoStep]
  split_ifs <;>
    exact ⟨rfl, rfl, rfl, rfl, rfl, rfl, rfl, rfl, rfl, rfl, rfl⟩

theorem autoStep_paused (s : Sim) (now : ℚ) (h : s.state.simulation = .Paused) :
    autoStep s now = s := by
  rw [autoStep, if_neg]
  rintro ⟨_, hR⟩
  rw [h] at hR
  exact SimulationMode.noConfusion hR

theorem spawnerStep_some_preserves (s : Sim) (rng : List (ℚ × ℚ)) (now : ℚ) (s1 : Sim)
    (h : spawnerStep s rng now = some s1) :
    s1.state = s.state ∧ s1.controller = s.controller ∧
    s1.offset_x = s.offset_x ∧ s1.offset_y = s.offset_y := by
  rw [spawnerStep] at h
  split_ifs at h
  · cases hpoll : pollSpawners now s.spawners rng s.world with
    | none => rw [hpoll] at h; exact Option.noConfusion h
    | some q =>
      obtain ⟨sps, w⟩ := q
      rw [hpoll] at h
      have := Option.some.inj h
      rw [← this]
      exact ⟨rfl, rfl, rfl, rfl⟩
  · have := Option.some.inj h
    rw [← this]
    exact ⟨rfl, rfl, rfl, rfl⟩

theorem spawnerStep_paused (s : Sim) (rng : List (ℚ × ℚ)) (now : ℚ)
    (h : s.state.simulation = .Paused) : spawnerStep s rng now = some s := by
  rw [spawnerStep, if_neg]
  intro hR
  rw [h] at hR
  exact SimulationMode.noConfusion hR

theorem pauseStep_preserves (s : Sim) (keys : List KeyCode) (now : ℚ) :
    (pauseStep s keys now).world = s.world ∧
    (pauseStep s keys now).controller = s.controller ∧
    (pauseStep s keys now).spawners = s.spawners ∧
    (pauseStep s keys now).offset_x = s.offset_x ∧
    (pauseStep s keys now).offset_y = s.offset_y ∧
    (pauseStep s keys now).state.spawn_instant = s.state.spawn_instant ∧
    (pauseStep s keys now).state.spawn_timeout = s.state.spawn_timeout ∧
    (pauseStep s keys now).state.update_instant = s.state.update_instant ∧
    (pauseStep s keys now).state.update_timeout = s.state.update_timeout ∧
    (pauseStep s keys now).state.debug_instant = s.state.debug_instant ∧
    (pauseStep s keys now).state.debug_timeout = s.state.debug_timeout := by
  rw [pauseStep]
  split_ifs <;>
    exact ⟨rfl, rfl, rfl, rfl, rfl, rfl, rfl, rfl, rfl, rfl, rfl⟩

theorem pauseStep_simulation_congr (s1 s2 : Sim) (keys : List KeyCode) (now : ℚ)
    (hsim : s1.state.simulation = s2.state.simulation)
    (hpi : s1.state.pause_instant = s2.state.pause_instant)
    (hpt : s1.state.pause_timeout = s2.state.pause_timeout) :
    (pauseStep s1 keys now).state.simulation = (pauseStep s2 keys now).state.simulation := by
  rw [pauseStep, pauseStep, SimulationState.is_pausable, SimulationState.is_pausable,
    hpi, hpt]
  split_ifs <;> simp [hsim]

theorem detectStep_preserves (s : Sim) (keys : List KeyCode) (now : ℚ) :
    (detectStep s keys now).world = s.world ∧
    (detectStep s keys now).state = s.state ∧
    (detectStep s keys now).spawners = s.spawners ∧
    (detectStep s keys now).offset_x = s.offset_x ∧
    (detectStep s keys now).offset_y = s.offset_y ∧
    (detectStep s keys now).controller
      = s.controller.detect_current_actions keys now :=
  ⟨rfl, rfl, rfl, rfl, rfl, rfl⟩

theorem dispatchStep_closed (s : Sim) (inp : FrameInput)
    (h : ¬ (s.controller.active_actions ≠ [] ∧ s.state.is_spawnable inp.now = true)) :
    dispatchStep s inp = s := by
  rw [dispatchStep, if_neg h]

theorem dispatchStep_preserves (s : Sim) (inp : FrameInput) :
    (dispatchStep s inp).controller = s.controller ∧
    (dispatchStep s inp).spawners = s.spawners := by
  rw [dispatchStep]
  split_ifs <;> exact ⟨rfl, rfl⟩

theorem overlayStep_preserves (s : Sim) (d : ℚ) :
    (overlayStep s d).world = s.world ∧
    (overlayStep s d).controller = s.controller ∧
    (overlayStep s d).spawners = s.spawners ∧
    (overlayStep s d).offset_x = s.offset_x ∧
    (overlayStep s d).offset_y = s.offset_y ∧
    (overlayStep s d).state.simulation = s.state.simulation ∧
    (overlayStep s d).state.spawn_instant = s.state.spawn_instant ∧
    (overlayStep s d).state.update_instant = s.state.update_instant ∧
    (overlayStep s d).state.debug_instant = s.state.debug_instant := by
  rw [overlayStep]
  split_ifs <;>
    exact ⟨rfl, rfl, rfl, rfl, rfl, rfl, rfl, rfl, rfl⟩

theorem frame_factor (s : Sim) (inp : FrameInput) (s2 : Sim)
    (h : spawnerStep (autoStep s inp.now) inp.rng inp.now = some s2) :
    frame s inp = some (overlayStep
      (dispatchStep (detectStep (pauseStep s2 inp.keysDown inp.now) inp.keysDown inp.now)
        inp) inp.update_time) := by
  rw [frame, h]

/-- C10: while the mode is Paused at the start of a frame, the automatic
step does nothing and the whole spawner-polling stage is skipped — no
spawner is polled, none emits, no spawner timer is reset — the frame
completes and hands back exactly the input spawner list; and spawner
cooldown timers are wall-clock based, not suspended: eligibility of an
unchanged spawner is monotone in the sampled time. -/
theorem C10_paused_freezes_spawning (s : Sim) (inp : FrameInput)
    (hP : s.state.simulation = .Paused) :
    autoStep s inp.now = s ∧
    spawnerStep (autoStep s inp.now) inp.rng inp.now = some (autoStep s inp.now) ∧
    (∃ out : Sim, frame s inp = some out ∧ out.spawners = s.spawners) ∧
    (∀ (sp : BodySpawner) (n1 n2 : ℚ), n1 ≤ n2 → sp.is_spawnable n1 = true →
      sp.is_spawnable n2 = true) := by
  have hauto : autoStep s inp.now = s := autoStep_paused s inp.now hP
  have hspawn : spawnerStep (autoStep s inp.now) inp.rng inp.now
      = some (autoStep s inp.now) := by
    rw [hauto]
    exact spawnerStep_paused s inp.rng inp.now hP
  refine ⟨hauto, hspawn, ?_, ?_⟩
  · refine ⟨_, frame_factor s inp (autoStep s inp.now) hspawn, ?_⟩
    rw [hauto,
      (overlayStep_preserves _ inp.update_time).2.2.1,
      (dispatchStep_preserves _ inp).2,
      (detectStep_preserves _ inp.keysDown inp.now).2.2.1]
    exact (pauseStep_preserves s inp.keysDown inp.now).2.2.1
  · intro sp n1 n2 hle he
    cases hT : sp.t with
    | Single =>
      rw [BodySpawner.is_spawnable, hT] at he ⊢
      simp only [Bool.and_eq_true, decide_eq_true_eq] at he ⊢
      exact ⟨he.1, by linarith [he.2]⟩
    | Pipeline =>
      rw [BodySpawner.is_spawnable, hT] at he ⊢
      simp only [Bool.and_eq_true, decide_eq_true_eq] at he ⊢
      exact ⟨he.1, by linarith [he.2]⟩

/-- Witness for `C10_paused_freezes_spawning`: a paused loop state with one
default spawner; the automatic step of the frame at time 1 is a no-op. -/
theorem C10_paused_freezes_spawning_witness :
    (demoSim { SimulationState.default 0 with simulation := .Paused }
      [BodySpawner.mkDefault 0]).state.simulation = SimulationMode.Paused ∧
    autoStep (demoSim { SimulationState.default 0 with simulation := .Paused }
      [BodySpawner.mkDefault 0]) (1 : ℚ)
      = demoSim { SimulationState.default 0 with simulation := .Paused }
          [BodySpawner.mkDefault 0] :=
  ⟨rfl,
   (C10_paused_freezes_spawning
      (demoSim { SimulationState.default 0 with simulation := .Paused }
        [BodySpawner.mkDefault 0])
      ⟨1, [], ⟨0, 0⟩, [], none, 0⟩ rfl).1⟩

/-- C7 counterexample: a frame in which the spawn cooldown of
`SimulationState` has NOT elapsed (`is_spawnable` is false at the frame
time) and yet an automated spawner emits an entity into the world, and
the timestamp of the spawn cooldown is not reset — the `SimulationState` spawn
gate only guards the user-action dispatch, not the spawner polling loop
of main.rs lines 71-78. -/
theorem C7_spawn_gate_counterexample :
    (demoSim ⟨.Hidden, .Hidden, .Hidden, .Hidden, 10, .Running,
        0, 2, 0, 2, 0, 2, 0, 2, 0, 2, 0, 0⟩
      [⟨⟨5, 6⟩, [], 1, 0, 0, 1, .Single, 0⟩]).state.is_spawnable 1 = false ∧
    (frame (demoSim ⟨.Hidden, .Hidden, .Hidden, .Hidden, 10, .Running,
        0, 2, 0, 2, 0, 2, 0, 2, 0, 2, 0, 0⟩
      [⟨⟨5, 6⟩, [], 1, 0, 0, 1, .Single, 0⟩])
      ⟨1, [], ⟨0, 0⟩, [], none, 0⟩).map (fun o => o.world.bodies.length) = some 1 ∧
    (frame (demoSim ⟨.Hidden, .Hidden, .Hidden, .Hidden, 10, .Running,
        0, 2, 0, 2, 0, 2, 0, 2, 0, 2, 0, 0⟩
      [⟨⟨5, 6⟩, [], 1, 0, 0, 1, .Single, 0⟩])
      ⟨1, [], ⟨0, 0⟩, [], none, 0⟩).map (fun o => o.state.spawn_instant) = some 0 := by
  refine ⟨?_, ?_, ?_⟩ <;>
    simp [demoSim, UserController.new, frame, autoStep, spawnerStep, pollSpawners,
      pauseStep, detectStep, dispatchStep, overlayStep,
      SimulationState.update_required, SimulationState.is_pausable,
      SimulationState.is_spawnable, BodySpawner.is_spawnable, BodySpawner.spawn,
      UserController.detect_current_actions, UserController.user_paused,
      World.add_body]

/-- C7 amended: the spawn-permission query of `SimulationState` gates the
user-action dispatch, not the automated spawners: user actions are handled
in a frame only if that spawn cooldown has elapsed, and the spawn
cooldown timestamp is reset exactly when the dispatched actions
contained a spawn action; automated spawners are driven by their own
per-spawner timers, with the shared cooldown gating semantics. -/
theorem C7_spawn_gate_characterization (s : Sim) (inp : FrameInput) (c : UserController)
    (world : World) (ox oy : ℚ) (st : SimulationState) (now : ℚ) (wp : Body)
    (pr : Option Body) :
    (s.state.is_spawnable inp.now = false → dispatchStep s inp = s) ∧
    ((c.handle_current_actions world ox oy st now wp pr).state.spawn_instant =
      if c.active_actions.any isSpawnAction = true then now else st.spawn_instant) := by
  constructor
  · intro h
    refine dispatchStep_closed s inp ?_
    rintro ⟨_, h2⟩
    rw [h] at h2
    exact Bool.false_ne_true h2
  · rw [UserController.handle_current_actions]
    by_cases h0 : c.active_actions = []
    · rw [if_pos h0, h0]
      simp
    · rw [if_neg h0]
      have hadd := handleFold_added c.scroll_speed c.zoom_speed wp pr now
        c.active_actions ⟨world, ox, oy, st, false⟩
      have hsp := (handleFold_spawn_fields c.scroll_speed c.zoom_speed wp pr now
        c.active_actions ⟨world, ox, oy, st, false⟩).1
      by_cases hany : c.active_actions.any isSpawnAction = true
      · have haddT : (c.active_actions.foldl
            (handleAction c.scroll_speed c.zoom_speed wp pr now)
            ⟨world, ox, oy, st, false⟩).added = true := by
          simp [hadd, hany]
        rw [if_pos haddT, if_pos hany]
      · have hanyF : c.active_actions.any isSpawnAction = false := by
          revert hany
          cases c.active_actions.any isSpawnAction <;> simp
        have haddF : (c.active_actions.foldl
            (handleAction c.scroll_speed c.zoom_speed wp pr now)
            ⟨world, ox, oy, st, false⟩).added = false := by
          simp [hadd, hanyF]
        rw [if_neg (by rw [haddF]; exact Bool.false_ne_true), if_neg hany]
        exact hsp

/-- Witness for `C7_spawn_gate_characterization`: with the spawn gate
closed at time 1, the dispatch stage is a no-op. -/
theorem C7_spawn_gate_characterization_witness :
    (demoSim ⟨.Hidden, .Hidden, .Hidden, .Hidden, 10, .Running,
        0, 2, 0, 2, 0, 2, 0, 2, 0, 2, 0, 0⟩ []).state.is_spawnable 1 = false ∧
    dispatchStep (demoSim ⟨.Hidden, .Hidden, .Hidden, .Hidden, 10, .Running,
        0, 2, 0, 2, 0, 2, 0, 2, 0, 2, 0, 0⟩ []) ⟨1, [], ⟨0, 0⟩, [], none, 0⟩
      = demoSim ⟨.Hidden, .Hidden, .Hidden, .Hidden, 10, .Running,
          0, 2, 0, 2, 0, 2, 0, 2, 0, 2, 0, 0⟩ [] := by
  have hg : (demoSim ⟨.Hidden, .Hidden, .Hidden, .Hidden, 10, .Running,
      0, 2, 0, 2, 0, 2, 0, 2, 0, 2, 0, 0⟩ []).state.is_spawnable 1 = false := by
    norm_num [demoSim, SimulationState.is_spawnable]
  exact ⟨hg,
    (C7_spawn_gate_characterization
      (demoSim ⟨.Hidden, .Hidden, .Hidden, .Hidden, 10, .Running,
        0, 2, 0, 2, 0, 2, 0, 2, 0, 2, 0, 0⟩ [])
      ⟨1, [], ⟨0, 0⟩, [], none, 0⟩
      (UserController.new 10 (1 / 100) 0) ⟨[], 0, 0, 1⟩ 0 0
      (SimulationState.default 0) 0 ⟨0, 0⟩ none).1 hg⟩

/-! Debug-flag lemmas for the shared debug cooldown. -/

theorem debug_toggable_congr (s1 s2 : SimulationState) (now : ℚ)
    (h1 : s1.debug_instant = s2.debug_instant) (h2 : s1.debug_timeout = s2.debug_timeout) :
    s1.debug_toggable now = s2.debug_toggable now := by
  rw [SimulationState.debug_toggable, SimulationState.debug_toggable, h1, h2]

theorem is_spawnable_congr (s1 s2 : SimulationState) (now : ℚ)
    (h1 : s1.spawn_instant = s2.spawn_instant) (h2 : s1.spawn_timeout = s2.spawn_timeout) :
    s1.is_spawnable now = s2.is_spawnable now := by
  rw [SimulationState.is_spawnable, SimulationState.is_spawnable, h1, h2]

theorem atomic_update_allowed_congr (s1 s2 : SimulationState) (now : ℚ)
    (h1 : s1.update_instant = s2.update_instant) (h2 : s1.update_timeout = s2.update_timeout) :
    s1.atomic_update_allowed now = s2.atomic_update_allowed now := by
  rw [SimulationState.atomic_update_allowed, SimulationState.atomic_update_allowed, h1, h2]

theorem handleAction_debug_timeout (sc z : ℚ) (wp : Body) (pr : Option Body) (now : ℚ)
    (a : HandleAcc) (act : KeyCode) :
    (handleAction sc z wp pr now a act).state.debug_timeout = a.state.debug_timeout := by
  cases act <;> first
    | rfl
    | (simp only [handleAction]; split_ifs <;> rfl)

theorem handleAction_debug_instant_cases (sc z : ℚ) (wp : Body) (pr : Option Body)
    (now : ℚ) (a : HandleAcc) (act : KeyCode) :
    (handleAction sc z wp pr now a act).state.debug_instant = a.state.debug_instant ∨
    (handleAction sc z wp pr now a act).state.debug_instant = now := by
  cases act <;> first
    | exact Or.inl rfl
    | (simp only [handleAction]; split_ifs <;> first | exact Or.inl rfl | exact Or.inr rfl)

theorem handleAction_debug_closed (sc z : ℚ) (wp : Body) (pr : Option Body) (now : ℚ)
    (a : HandleAcc) (act : KeyCode) (h : a.state.debug_toggable now = false) :
    (handleAction sc z wp pr now a act).state.debug_information
        = a.state.debug_information ∧
    (handleAction sc z wp pr now a act).state.debug_grid = a.state.debug_grid ∧
    (handleAction sc z wp pr now a act).state.collision_points
        = a.state.collision_points ∧
    (handleAction sc z wp pr now a act).state.hitboxes = a.state.hitboxes ∧
    (handleAction sc z wp pr now a act).state.debug_instant = a.state.debug_instant := by
  cases act <;> first
    | exact ⟨rfl, rfl, rfl, rfl, rfl⟩
    | (simp only [handleAction]
       split_ifs with hg
       · first
         | exact ⟨rfl, rfl, rfl, rfl, rfl⟩
         | exact absurd hg (by rw [h]; exact Bool.false_ne_true)
       · exact ⟨rfl, rfl, rfl, rfl, rfl⟩)

theorem changedDebugCount_self (st : SimulationState) : changedDebugCount st st = 0 := by
  simp [changedDebugCount]

theorem handleAction_debug_cases (sc z : ℚ) (wp : Body) (pr : Option Body) (now : ℚ)
    (a : HandleAcc) (act : KeyCode) :
    ((handleAction sc z wp pr now a act).state.debug_information
        = a.state.debug_information ∧
     (handleAction sc z wp pr now a act).state.debug_grid = a.state.debug_grid ∧
     (handleAction sc z wp pr now a act).state.collision_points
        = a.state.collision_points ∧
     (handleAction sc z wp pr now a act).state.hitboxes = a.state.hitboxes ∧
     (handleAction sc z wp pr now a act).state.debug_instant = a.state.debug_instant) ∨
    ((handleAction sc z wp pr now a act).state.debug_instant = now ∧
     changedDebugCount a.state (handleAction sc z wp pr now a act).state ≤ 1) := by
  cases act <;> first
    | exact Or.inl ⟨rfl, rfl, rfl, rfl, rfl⟩
    | (simp only [handleAction]
       split_ifs
       · first
         | exact Or.inl ⟨rfl, rfl, rfl, rfl, rfl⟩
         | (refine Or.inr ⟨rfl, ?_⟩
            simp only [changedDebugCount]
            split_ifs <;> omega)
       · exact Or.inl ⟨rfl, rfl, rfl, rfl, rfl⟩)

theorem handleFold_debug_timeout (sc z : ℚ) (wp : Body) (pr : Option Body) (now : ℚ) :
    ∀ (l : List KeyCode) (a : HandleAcc),
      (l.foldl (handleAction sc z wp pr now) a).state.debug_timeout
        = a.state.debug_timeout := by
  intro l
  induction l with
  | nil => intro a; rfl
  | cons act l ih =>
    intro a
    rw [List.foldl_cons, ih, handleAction_debug_timeout]

theorem handleFold_debug_instant_absorb (sc z : ℚ) (wp : Body) (pr : Option Body)
    (now : ℚ) :
    ∀ (l : List KeyCode) (a : HandleAcc), a.state.debug_instant = now →
      (l.foldl (handleAction sc z wp pr now) a).state.debug_instant = now := by
  intro l
  induction l with
  | nil => intro a h; exact h
  | cons act l ih =>
    intro a h
    rw [List.foldl_cons]
    refine ih _ ?_
    rcases handleAction_debug_instant_cases sc z wp pr now a act with hc | hc
    · rw [hc, h]
    · exact hc

theorem handleFold_debug_closed (sc z : ℚ) (wp : Body) (pr : Option Body) (now : ℚ) :
    ∀ (l : List KeyCode) (a : HandleAcc), a.state.debug_toggable now = false →
      (l.foldl (handleAction sc z wp pr now) a).state.debug_information
        = a.state.debug_information ∧
      (l.foldl (handleAction sc z wp pr now) a).state.debug_grid = a.state.debug_grid ∧
      (l.foldl (handleAction sc z wp pr now) a).state.collision_points
        = a.state.collision_points ∧
      (l.foldl (handleAction sc z wp pr now) a).state.hitboxes = a.state.hitboxes ∧
      (l.foldl (handleAction sc z wp pr now) a).state.debug_instant
        = a.state.debug_instant := by
  intro l
  induction l with
  | nil => intro a _; exact ⟨rfl, rfl, rfl, rfl, rfl⟩
  | cons act l ih =>
    intro a h
    rw [List.foldl_cons]
    obtain ⟨g1, g2, g3, g4, g5⟩ := handleAction_debug_closed sc z wp pr now a act h
    have hnext : (handleAction sc z wp pr now a act).state.debug_toggable now = false := by
      rw [debug_toggable_congr _ a.state now g5
        (handleAction_debug_timeout sc z wp pr now a act)]
      exact h
    obtain ⟨f1, f2, f3, f4, f5⟩ := ih (handleAction sc z wp pr now a act) hnext
    exact ⟨f1.trans g1, f2.trans g2, f3.trans g3, f4.trans g4, f5.trans g5⟩

theorem handleFold_debug_change (sc z : ℚ) (wp : Body) (pr : Option Body) (now : ℚ) :
    ∀ (l : List KeyCode) (a : HandleAcc),
      ((l.foldl (handleAction sc z wp pr now) a).state.debug_information
          = a.state.debug_information ∧
       (l.foldl (handleAction sc z wp pr now) a).state.debug_grid = a.state.debug_grid ∧
       (l.foldl (handleAction sc z wp pr now) a).state.collision_points
          = a.state.collision_points ∧
       (l.foldl (handleAction sc z wp pr now) a).state.hitboxes = a.state.hitboxes ∧
       (l.foldl (handleAction sc z wp pr now) a).state.debug_instant
          = a.state.debug_instant) ∨
      (l.foldl (handleAction sc z wp pr now) a).state.debug_instant = now := by
  intro l
  induction l with
  | nil => intro a; exact Or.inl ⟨rfl, rfl, rfl, rfl, rfl⟩
  | cons act l ih =>
    intro a
    rw [List.foldl_cons]
    rcases handleAction_debug_cases sc z wp pr now a act with
      ⟨g1, g2, g3, g4, g5⟩ | ⟨g5, _⟩
    · rcases ih (handleAction sc z wp pr now a act) with ⟨f1, f2, f3, f4, f5⟩ | f5
      · exact Or.inl ⟨f1.trans g1, f2.trans g2, f3.trans g3, f4.trans g4, f5.trans g5⟩
      · exact Or.inr f5
    · exact Or.inr (handleFold_debug_instant_absorb sc z wp pr now l _ g5)

theorem changedDebugCount_right_congr (s0 s1 s2 : SimulationState)
    (h1 : s1.debug_information = s2.debug_information)
    (h2 : s1.debug_grid = s2.debug_grid)
    (h3 : s1.collision_points = s2.collision_points)
    (h4 : s1.hitboxes = s2.hitboxes) :
    changedDebugCount s0 s1 = changedDebugCount s0 s2 := by
  rw [changedDebugCount, changedDebugCount, h1, h2, h3, h4]

theorem changedDebugCount_left_shift (s0 s1 s2 : SimulationState)
    (h1 : s1.debug_information = s0.debug_information)
    (h2 : s1.debug_grid = s0.debug_grid)
    (h3 : s1.collision_points = s0.collision_points)
    (h4 : s1.hitboxes = s0.hitboxes) :
    changedDebugCount s1 s2 = changedDebugCount s0 s2 := by
  rw [changedDebugCount, changedDebugCount, h1, h2, h3, h4]

theorem handleFold_debug_count (sc z : ℚ) (wp : Body) (pr : Option Body) (now : ℚ) :
    ∀ (l : List KeyCode) (a : HandleAcc), 0 < a.state.debug_timeout →
      changedDebugCount a.state (l.foldl (handleAction sc z wp pr now) a).state ≤ 1 := by
  intro l
  induction l with
  | nil =>
    intro a _
    rw [List.foldl_nil, changedDebugCount_self]
    omega
  | cons act l ih =>
    intro a ht
    rw [List.foldl_cons]
    rcases handleAction_debug_cases sc z wp pr now a act with
      ⟨g1, g2, g3, g4, _⟩ | ⟨g5, gcnt⟩
    · rw [← changedDebugCount_left_shift a.state (handleAction sc z wp pr now a act).state
        _ g1 g2 g3 g4]
      refine ih _ ?_
      rw [handleAction_debug_timeout]
      exact ht
    · have htout := handleAction_debug_timeout sc z wp pr now a act
      have hclosed : (handleAction sc z wp pr now a act).state.debug_toggable now
          = false := by
        rw [SimulationState.debug_toggable, g5, htout]
        simp only [sub_self, decide_eq_false_iff_not, not_le]
        exact ht
      obtain ⟨f1, f2, f3, f4, _⟩ :=
        handleFold_debug_closed sc z wp pr now l (handleAction sc z wp pr now a act) hclosed
      rw [changedDebugCount_right_congr a.state _ _ f1 f2 f3 f4]
      exact gcnt

/-- C6: the debug cooldown is one timer shared by all four debug features:
(i) while it has not elapsed, a dispatch changes no debug flag; (ii) if a
dispatch changed any debug flag, the shared timer was reset to the frame
time; (iii) with a positive debounce interval at most one of the four
flags changes per dispatch, even when several toggle keys are asserted in
the same frame; (iv) a single toggle action with the gate open flips
exactly the flag of the named feature and resets the shared timer; (v) once the
timer is reset to the frame time, the gate is closed at every time less
than one interval later. -/
theorem C6_shared_debug_cooldown (c : UserController) (world : World) (ox oy : ℚ)
    (st : SimulationState) (now : ℚ) (wp : Body) (pr : Option Body) :
    (st.debug_toggable now = false →
      ((c.handle_current_actions world ox oy st now wp pr).state.debug_information
          = st.debug_information ∧
       (c.handle_current_actions world ox oy st now wp pr).state.debug_grid
          = st.debug_grid ∧
       (c.handle_current_actions world ox oy st now wp pr).state.collision_points
          = st.collision_points ∧
       (c.handle_current_actions world ox oy st now wp pr).state.hitboxes
          = st.hitboxes)) ∧
    (debugFlags (c.handle_current_actions world ox oy st now wp pr).state
        ≠ debugFlags st →
      (c.handle_current_actions world ox oy st now wp pr).state.debug_instant = now) ∧
    (0 < st.debug_timeout →
      changedDebugCount st (c.handle_current_actions world ox oy st now wp pr).state
        ≤ 1) ∧
    (∀ a : HandleAcc, a.state.debug_toggable now = true →
      ((handleAction c.scroll_speed c.zoom_speed wp pr now a TOGGLE_TEXT).state
          = { a.state with
              debug_information := a.state.debug_information.toggle, debug_instant := now } ∧
       (handleAction c.scroll_speed c.zoom_speed wp pr now a TOGGLE_GRID).state
          = { a.state with
              debug_grid := a.state.debug_grid.toggle, debug_instant := now } ∧
       (handleAction c.scroll_speed c.zoom_speed wp pr now a TOGGLE_COLLISION_POINTS).state
          = { a.state with
              collision_points := a.state.collision_points.toggle, debug_instant := now } ∧
       (handleAction c.scroll_speed c.zoom_speed wp pr now a TOGGLE_HITBOXES).state
          = { a.state with
              hitboxes := a.state.hitboxes.toggle, debug_instant := now })) ∧
    (∀ t1 : ℚ, t1 - now < st.debug_timeout →
      ({ st with debug_instant := now } : SimulationState).debug_toggable t1 = false) := by
  have hiv : ∀ a : HandleAcc, a.state.debug_toggable now = true →
      ((handleAction c.scroll_speed c.zoom_speed wp pr now a TOGGLE_TEXT).state
          = { a.state with
              debug_information := a.state.debug_information.toggle, debug_instant := now } ∧
       (handleAction c.scroll_speed c.zoom_speed wp pr now a TOGGLE_GRID).state
          = { a.state with
              debug_grid := a.state.debug_grid.toggle, debug_instant := now } ∧
       (handleAction c.scroll_speed c.zoom_speed wp pr now a TOGGLE_COLLISION_POINTS).state
          = { a.state with
              collision_points := a.state.collision_points.toggle, debug_instant := now } ∧
       (handleAction c.scroll_speed c.zoom_speed wp pr now a TOGGLE_HITBOXES).state
          = { a.state with
              hitboxes := a.state.hitboxes.toggle, debug_instant := now }) := by
    intro a hg
    refine ⟨?_, ?_, ?_, ?_⟩
    · simp only [TOGGLE_TEXT, handleAction]
      rw [if_pos hg]
    · simp only [TOGGLE_GRID, handleAction]
      rw [if_pos hg]
    · simp only [TOGGLE_COLLISION_POINTS, handleAction]
      rw [if_pos hg]
    · simp only [TOGGLE_HITBOXES, handleAction]
      rw [if_pos hg]
  have hv : ∀ t1 : ℚ, t1 - now < st.debug_timeout →
      ({ st with debug_instant := now } : SimulationState).debug_toggable t1 = false := by
    intro t1 h
    simp only [SimulationState.debug_toggable, decide_eq_false_iff_not, not_le]
    exact h
  by_cases h0 : c.active_actions = []
  · have hh : c.handle_current_actions world ox oy st now wp pr
        = ⟨world, ox, oy, st, false⟩ := by
      rw [UserController.handle_current_actions, if_pos h0]
    rw [hh]
    refine ⟨fun _ => ⟨rfl, rfl, rfl, rfl⟩, fun hflag => absurd rfl hflag, ?_, hiv, hv⟩
    intro _
    rw [show (⟨world, ox, oy, st, false⟩ : HandleAcc).state = st from rfl,
      changedDebugCount_self]
    omega
  · have hfields :
        (c.handle_current_actions world ox oy st now wp pr).state.debug_information
          = (c.active_actions.foldl (handleAction c.scroll_speed c.zoom_speed wp pr now)
              ⟨world, ox, oy, st, false⟩).state.debug_information ∧
        (c.handle_current_actions world ox oy st now wp pr).state.debug_grid
          = (c.active_actions.foldl (handleAction c.scroll_speed c.zoom_speed wp pr now)
              ⟨world, ox, oy, st, false⟩).state.debug_grid ∧
        (c.handle_current_actions world ox oy st now wp pr).state.collision_points
          = (c.active_actions.foldl (handleAction c.scroll_speed c.zoom_speed wp pr now)
              ⟨world, ox, oy, st, false⟩).state.collision_points ∧
        (c.handle_current_actions world ox oy st now wp pr).state.hitboxes
          = (c.active_actions.foldl (handleAction c.scroll_speed c.zoom_speed wp pr now)
              ⟨world, ox, oy, st, false⟩).state.hitboxes ∧
        (c.handle_current_actions world ox oy st now wp pr).state.debug_instant
          = (c.active_actions.foldl (handleAction c.scroll_speed c.zoom_speed wp pr now)
              ⟨world, ox, oy, st, false⟩).state.debug_instant := by
      rw [UserController.handle_current_actions, if_neg h0]
      by_cases hadd : (c.active_actions.foldl
          (handleAction c.scroll_speed c.zoom_speed wp pr now)
          ⟨world, ox, oy, st, false⟩).added = true
      · rw [if_pos hadd]
        exact ⟨rfl, rfl, rfl, rfl, rfl⟩
      · rw [if_neg hadd]
        exact ⟨rfl, rfl, rfl, rfl, rfl⟩
    obtain ⟨hf1, hf2, hf3, hf4, hf5⟩ := hfields
    refine ⟨?_, ?_, ?_, hiv, hv⟩
    · intro hg
      obtain ⟨f1, f2, f3, f4, _⟩ := handleFold_debug_closed c.scroll_speed c.zoom_speed
        wp pr now c.active_actions ⟨world, ox, oy, st, false⟩ hg
      exact ⟨hf1.trans f1, hf2.trans f2, hf3.trans f3, hf4.trans f4⟩
    · intro hflag
      rcases handleFold_debug_change c.scroll_speed c.zoom_speed wp pr now
        c.active_actions ⟨world, ox, oy, st, false⟩ with ⟨f1, f2, f3, f4, _⟩ | f5
      · refine absurd ?_ hflag
        rw [debugFlags, debugFlags, hf1, f1, hf2, f2, hf3, f3, hf4, f4]
      · exact hf5.trans f5
    · intro ht
      rw [changedDebugCount_right_congr st _ _ hf1 hf2 hf3 hf4]
      exact handleFold_debug_count c.scroll_speed c.zoom_speed wp pr now
        c.active_actions ⟨world, ox, oy, st, false⟩ ht

/-- Witness for `C6_shared_debug_cooldown`: at the default state (debounce
0.25 s > 0) any dispatch changes at most one debug flag, and with the
timer reset at time 1, the gate is still closed at time 1.2. -/
theorem C6_shared_debug_cooldown_witness :
    ((0 : ℚ) < (SimulationState.default 0).debug_timeout ∧
      changedDebugCount (SimulationState.default 0)
        ((UserController.new 10 (1 / 100) 0).handle_current_actions ⟨[], 0, 0, 1⟩ 0 0
          (SimulationState.default 0) 1 ⟨0, 0⟩ none).state ≤ 1) ∧
    ((6 / 5 : ℚ) - 1 < (SimulationState.default 0).debug_timeout ∧
      ({ SimulationState.default 0 with
          debug_instant := 1 } : SimulationState).debug_toggable (6 / 5) = false) := by
  have h1 : (0 : ℚ) < (SimulationState.default 0).debug_timeout := by
    norm_num [SimulationState.default]
  have h2 : (6 / 5 : ℚ) - 1 < (SimulationState.default 0).debug_timeout := by
    norm_num [SimulationState.default]
  exact ⟨⟨h1,
      (C6_shared_debug_cooldown (UserController.new 10 (1 / 100) 0) ⟨[], 0, 0, 1⟩ 0 0
        (SimulationState.default 0) 1 ⟨0, 0⟩ none).2.2.1 h1⟩,
    ⟨h2,
      (C6_shared_debug_cooldown (UserController.new 10 (1 / 100) 0) ⟨[], 0, 0, 1⟩ 0 0
        (SimulationState.default 0) 1 ⟨0, 0⟩ none).2.2.2.2 (6 / 5) h2⟩⟩

/-- C3 counterexample: a frame with the mode Paused, the manual-step
cooldown elapsed and the step key held and sampled — yet the manual step
does NOT fire, because the action dispatch of main.rs line 87 is also
gated by `SimulationState::is_spawnable`, which is false in this frame.
So "mode Paused and step cooldown elapsed" does not suffice for a
requested manual step to succeed. -/
theorem C3_manual_step_counterexample :
    (demoSim ⟨.Hidden, .Hidden, .Hidden, .Hidden, 10, .Paused,
        0, 2, 0, 2, 0, 2, 0, 2, 0, 1 / 2, 0, 0⟩ []).state.simulation
      = SimulationMode.Paused ∧
    (demoSim ⟨.Hidden, .Hidden, .Hidden, .Hidden, 10, .Paused,
        0, 2, 0, 2, 0, 2, 0, 2, 0, 1 / 2, 0, 0⟩ []).state.atomic_update_allowed 1
      = true ∧
    KeyCode.U ∈ ((demoSim ⟨.Hidden, .Hidden, .Hidden, .Hidden, 10, .Paused,
        0, 2, 0, 2, 0, 2, 0, 2, 0, 1 / 2, 0, 0⟩ []).controller.detect_current_actions
        [KeyCode.U] 1).active_actions ∧
    (demoSim ⟨.Hidden, .Hidden, .Hidden, .Hidden, 10, .Paused,
        0, 2, 0, 2, 0, 2, 0, 2, 0, 1 / 2, 0, 0⟩ []).state.is_spawnable 1 = false ∧
    (frame (demoSim ⟨.Hidden, .Hidden, .Hidden, .Hidden, 10, .Paused,
        0, 2, 0, 2, 0, 2, 0, 2, 0, 1 / 2, 0, 0⟩ [])
      ⟨1, [KeyCode.U], ⟨0, 0⟩, [], none, 0⟩).map (fun o => o.state.update_instant)
      = some 0 ∧
    (frame (demoSim ⟨.Hidden, .Hidden, .Hidden, .Hidden, 10, .Paused,
        0, 2, 0, 2, 0, 2, 0, 2, 0, 1 / 2, 0, 0⟩ [])
      ⟨1, [KeyCode.U], ⟨0, 0⟩, [], none, 0⟩).map (fun o => o.world.steps) = some 0 := by
  refine ⟨rfl, ?_, ?_, ?_, ?_, ?_⟩ <;>
    norm_num [demoSim, UserController.new, frame, autoStep, spawnerStep, pollSpawners,
      pauseStep, detectStep, dispatchStep, overlayStep,
      SimulationState.update_required, SimulationState.is_pausable,
      SimulationState.is_spawnable, SimulationState.atomic_update_allowed,
      UserController.detect_current_actions, UserController.user_paused,
      OPEN_MENU_AND_PAUSE, MOVE_CAMERA_UP, MOVE_CAMERA_DOWN, MOVE_CAMERA_LEFT,
      MOVE_CAMERA_RIGHT, ZOOM_CAMERA_IN, ZOOM_CAMERA_OUT, SPAWN_CIRCLE, SPAWN_AABB,
      SPAWN_OBB, SPAWN_POLYGON, SPAWN_ATTRACTOR, TOGGLE_TEXT, TOGGLE_GRID,
      TOGGLE_HITBOXES, TOGGLE_COLLISION_POINTS, WORLD_UPDATE, RESET_CAMERA_POS]

/-- C3 amended: a manual single physics step fires in a frame iff, at
dispatch time, the sampled action list is non-empty and the spawn
cooldown of `SimulationState` has elapsed (the extra dispatch gate of
main.rs line 87), the manual-step key is among the sampled actions, the
mode after the pause handling of this frame is Paused, and the manual-step
cooldown has elapsed; in particular it never fires when that mode is
Running. -/
theorem C3_manual_step_characterization (s : Sim) (inp : FrameInput) (out : Sim)
    (hfr : frame s inp = some out)
    (hfresh : s.state.update_instant ≠ inp.now) :
    (out.state.update_instant = inp.now ↔
      ((s.controller.detect_current_actions inp.keysDown inp.now).active_actions ≠ [] ∧
       s.state.is_spawnable inp.now = true ∧
       KeyCode.U ∈ (s.controller.detect_current_actions inp.keysDown inp.now).active_actions ∧
       (pauseStep s inp.keysDown inp.now).state.simulation = SimulationMode.Paused ∧
       s.state.atomic_update_allowed inp.now = true)) ∧
    ((pauseStep s inp.keysDown inp.now).state.simulation = SimulationMode.Running →
      out.state.update_instant ≠ inp.now) := by
  obtain ⟨s2, hs2⟩ := Option.isSome_iff_exists.mp
    (spawnerStep_isSome (autoStep s inp.now) inp.rng inp.now)
  have hout : out = overlayStep (dispatchStep
      (detectStep (pauseStep s2 inp.keysDown inp.now) inp.keysDown inp.now) inp)
      inp.update_time := by
    have hf := frame_factor s inp s2 hs2
    rw [hf] at hfr
    exact (Option.some.inj hfr).symm
  obtain ⟨hA_c, hA_sp, hA_ox, hA_oy, hA_sim, hA_pi, hA_pt, hA_si, hA_st, hA_ui, hA_ut⟩ :=
    autoStep_preserves s inp.now
  obtain ⟨h2_state, h2_c, h2_ox, h2_oy⟩ :=
    spawnerStep_some_preserves (autoStep s inp.now) inp.rng inp.now s2 hs2
  obtain ⟨hP_w, hP_c, hP_sp, hP_ox, hP_oy, hP_si, hP_st, hP_ui, hP_ut, hP_di, hP_dt⟩ :=
    pauseStep_preserves s2 inp.keysDown inp.now
  have hmode : (pauseStep s2 inp.keysDown inp.now).state.simulation
      = (pauseStep s inp.keysDown inp.now).state.simulation := by
    apply pauseStep_simulation_congr
    · rw [h2_state, hA_sim]
    · rw [h2_state, hA_pi]
    · rw [h2_state, hA_pt]
  have hctrl : (detectStep (pauseStep s2 inp.keysDown inp.now) inp.keysDown
      inp.now).controller
      = s.controller.detect_current_actions inp.keysDown inp.now := by
    show ((pauseStep s2 inp.keysDown inp.now).controller.detect_current_actions
      inp.keysDown inp.now) = _
    rw [hP_c, h2_c, hA_c]
  have h4_state : (detectStep (pauseStep s2 inp.keysDown inp.now) inp.keysDown
      inp.now).state = (pauseStep s2 inp.keysDown inp.now).state := rfl
  have hspawngate : (detectStep (pauseStep s2 inp.keysDown inp.now) inp.keysDown
      inp.now).state.is_spawnable inp.now = s.state.is_spawnable inp.now := by
    rw [h4_state]
    apply is_spawnable_congr
    · rw [hP_si, h2_state, hA_si]
    · rw [hP_st, h2_state, hA_st]
  have hallowed : (detectStep (pauseStep s2 inp.keysDown inp.now) inp.keysDown
      inp.now).state.atomic_update_allowed inp.now
      = s.state.atomic_update_allowed inp.now := by
    rw [h4_state]
    apply atomic_update_allowed_congr
    · rw [hP_ui, h2_state, hA_ui]
    · rw [hP_ut, h2_state, hA_ut]
  have hupd4 : (detectStep (pauseStep s2 inp.keysDown inp.now) inp.keysDown
      inp.now).state.update_instant = s.state.update_instant := by
    rw [h4_state, hP_ui, h2_state, hA_ui]
  have hsim4 : (detectStep (pauseStep s2 inp.keysDown inp.now) inp.keysDown
      inp.now).state.simulation = (pauseStep s inp.keysDown inp.now).state.simulation := by
    rw [h4_state]
    exact hmode
  have hout_ui : out.state.update_instant
      = (dispatchStep (detectStep (pauseStep s2 inp.keysDown inp.now) inp.keysDown
          inp.now) inp).state.update_instant := by
    rw [hout]
    exact (overlayStep_preserves _ _).2.2.2.2.2.2.2.1
  have hiff : out.state.update_instant = inp.now ↔
      ((s.controller.detect_current_actions inp.keysDown inp.now).active_actions ≠ [] ∧
       s.state.is_spawnable inp.now = true ∧
       KeyCode.U ∈ (s.controller.detect_current_actions inp.keysDown inp.now).active_actions ∧
       (pauseStep s inp.keysDown inp.now).state.simulation = SimulationMode.Paused ∧
       s.state.atomic_update_allowed inp.now = true) := by
    rw [← hctrl, ← hspawngate, ← hallowed, ← hsim4, hout_ui]
    by_cases hgate : (detectStep (pauseStep s2 inp.keysDown inp.now) inp.keysDown
        inp.now).controller.active_actions ≠ [] ∧
        (detectStep (pauseStep s2 inp.keysDown inp.now) inp.keysDown
          inp.now).state.is_spawnable inp.now = true
    · rw [dispatchStep, if_pos hgate]
      have hhandle_ui : ((detectStep (pauseStep s2 inp.keysDown inp.now) inp.keysDown
          inp.now).controller.handle_current_actions
          (detectStep (pauseStep s2 inp.keysDown inp.now) inp.keysDown inp.now).world
          (detectStep (pauseStep s2 inp.keysDown inp.now) inp.keysDown inp.now).offset_x
          (detectStep (pauseStep s2 inp.keysDown inp.now) inp.keysDown inp.now).offset_y
          (detectStep (pauseStep s2 inp.keysDown inp.now) inp.keysDown inp.now).state
          inp.now inp.wp inp.polyRes).state.update_instant
          = ((detectStep (pauseStep s2 inp.keysDown inp.now) inp.keysDown
              inp.now).controller.active_actions.foldl
              (handleAction
                (detectStep (pauseStep s2 inp.keysDown inp.now) inp.keysDown
                  inp.now).controller.scroll_speed
                (detectStep (pauseStep s2 inp.keysDown inp.now) inp.keysDown
                  inp.now).controller.zoom_speed
                inp.wp inp.polyRes inp.now)
              ⟨(detectStep (pauseStep s2 inp.keysDown inp.now) inp.keysDown inp.now).world,
               (detectStep (pauseStep s2 inp.keysDown inp.now) inp.keysDown inp.now).offset_x,
               (detectStep (pauseStep s2 inp.keysDown inp.now) inp.keysDown inp.now).offset_y,
               (detectStep (pauseStep s2 inp.keysDown inp.now) inp.keysDown inp.now).state,
               false⟩).state.update_instant := by
        rw [UserController.handle_current_actions, if_neg hgate.1]
        by_cases hadd : ((detectStep (pauseStep s2 inp.keysDown inp.now) inp.keysDown
            inp.now).controller.active_actions.foldl
            (handleAction
              (detectStep (pauseStep s2 inp.keysDown inp.now) inp.keysDown
                inp.now).controller.scroll_speed
              (detectStep (pauseStep s2 inp.keysDown inp.now) inp.keysDown
                inp.now).controller.zoom_speed
              inp.wp inp.polyRes inp.now)
            ⟨(detectStep (pauseStep s2 inp.keysDown inp.now) inp.keysDown inp.now).world,
             (detectStep (pauseStep s2 inp.keysDown inp.now) inp.keysDown inp.now).offset_x,
             (detectStep (pauseStep s2 inp.keysDown inp.now) inp.keysDown inp.now).offset_y,
             (detectStep (pauseStep s2 inp.keysDown inp.now) inp.keysDown inp.now).state,
             false⟩).added = true
        · rw [if_pos hadd]
        · rw [if_neg hadd]
      rw [hhandle_ui]
      by_cases hU : KeyCode.U ∈ (detectStep (pauseStep s2 inp.keysDown inp.now)
          inp.keysDown inp.now).controller.active_actions
      · by_cases hPse : (detectStep (pauseStep s2 inp.keysDown inp.now) inp.keysDown
            inp.now).state.simulation = SimulationMode.Paused
        · by_cases hAl : (detectStep (pauseStep s2 inp.keysDown inp.now) inp.keysDown
              inp.now).state.atomic_update_allowed inp.now = true
          · refine iff_of_true ?_ ⟨hgate.1, hgate.2, hU, hPse, hAl⟩
            exact handleFold_U_fires _ _ inp.wp inp.polyRes inp.now _ _ hPse hAl hU
          · have hAlF : (detectStep (pauseStep s2 inp.keysDown inp.now) inp.keysDown
                inp.now).state.atomic_update_allowed inp.now = false := by
              cases hb : (detectStep (pauseStep s2 inp.keysDown inp.now) inp.keysDown
                  inp.now).state.atomic_update_allowed inp.now
              · rfl
              · exact absurd hb hAl
            refine iff_of_false ?_ ?_
            · have hpres := handleFold_not_allowed
                (detectStep (pauseStep s2 inp.keysDown inp.now) inp.keysDown
                  inp.now).controller.scroll_speed
                (detectStep (pauseStep s2 inp.keysDown inp.now) inp.keysDown
                  inp.now).controller.zoom_speed
                inp.wp inp.polyRes inp.now
                ((detectStep (pauseStep s2 inp.keysDown inp.now) inp.keysDown
                  inp.now).controller.active_actions)
                ⟨(detectStep (pauseStep s2 inp.keysDown inp.now) inp.keysDown inp.now).world,
                 (detectStep (pauseStep s2 inp.keysDown inp.now) inp.keysDown inp.now).offset_x,
                 (detectStep (pauseStep s2 inp.keysDown inp.now) inp.keysDown inp.now).offset_y,
                 (detectStep (pauseStep s2 inp.keysDown inp.now) inp.keysDown inp.now).state,
                 false⟩ hAlF
              rw [hpres]
              exact fun hc => hfresh (hupd4 ▸ hc)
            · rintro ⟨_, _, _, _, hAl2⟩
              exact hAl hAl2
        · refine iff_of_false ?_ ?_
          · have hpres := handleFold_not_paused
              (detectStep (pauseStep s2 inp.keysDown inp.now) inp.keysDown
                inp.now).controller.scroll_speed
              (detectStep (pauseStep s2 inp.keysDown inp.now) inp.keysDown
                inp.now).controller.zoom_speed
              inp.wp inp.polyRes inp.now
              ((detectStep (pauseStep s2 inp.keysDown inp.now) inp.keysDown
                inp.now).controller.active_actions)
              ⟨(detectStep (pauseStep s2 inp.keysDown inp.now) inp.keysDown inp.now).world,
               (detectStep (pauseStep s2 inp.keysDown inp.now) inp.keysDown inp.now).offset_x,
               (detectStep (pauseStep s2 inp.keysDown inp.now) inp.keysDown inp.now).offset_y,
               (detectStep (pauseStep s2 inp.keysDown inp.now) inp.keysDown inp.now).state,
               false⟩ hPse
            rw [hpres]
            exact fun hc => hfresh (hupd4 ▸ hc)
          · rintro ⟨_, _, _, hPse2, _⟩
            exact hPse hPse2
      · refine iff_of_false ?_ ?_
        · have hpres := handleFold_no_U
            (detectStep (pauseStep s2 inp.keysDown inp.now) inp.keysDown
              inp.now).controller.scroll_speed
            (detectStep (pauseStep s2 inp.keysDown inp.now) inp.keysDown
              inp.now).controller.zoom_speed
            inp.wp inp.polyRes inp.now
            ((detectStep (pauseStep s2 inp.keysDown inp.now) inp.keysDown
              inp.now).controller.active_actions)
            ⟨(detectStep (pauseStep s2 inp.keysDown inp.now) inp.keysDown inp.now).world,
             (detectStep (pauseStep s2 inp.keysDown inp.now) inp.keysDown inp.now).offset_x,
             (detectStep (pauseStep s2 inp.keysDown inp.now) inp.keysDown inp.now).offset_y,
             (detectStep (pauseStep s2 inp.keysDown inp.now) inp.keysDown inp.now).state,
             false⟩ hU
          rw [hpres]
          exact fun hc => hfresh (hupd4 ▸ hc)
        · rintro ⟨_, _, hU2, _, _⟩
          exact hU hU2
    · rw [dispatchStep_closed _ inp hgate]
      refine iff_of_false ?_ ?_
      · rw [hupd4]
        exact hfresh
      · rintro ⟨hne2, hsg, _, _, _⟩
        exact hgate ⟨hne2, hsg⟩
  refine ⟨hiff, fun hR hnow => ?_⟩
  obtain ⟨_, _, _, hD, _⟩ := hiff.mp hnow
  rw [hR] at hD
  exact SimulationMode.noConfusion hD

/-- Witness for `C3_manual_step_characterization`, at the concrete frame of
the C3 counterexample: the hypotheses hold there, and the characterization
yields that the manual step did not fire (the spawn gate is closed). -/
theorem C3_manual_step_characterization_witness :
    (demoSim ⟨.Hidden, .Hidden, .Hidden, .Hidden, 10, .Paused,
        0, 2, 0, 2, 0, 2, 0, 2, 0, 1 / 2, 0, 0⟩ []).state.update_instant
      ≠ (⟨1, [KeyCode.U], ⟨0, 0⟩, [], none, 0⟩ : FrameInput).now ∧
    ((frame (demoSim ⟨.Hidden, .Hidden, .Hidden, .Hidden, 10, .Paused,
        0, 2, 0, 2, 0, 2, 0, 2, 0, 1 / 2, 0, 0⟩ [])
      ⟨1, [KeyCode.U], ⟨0, 0⟩, [], none, 0⟩).get
      (frame_isSome (demoSim ⟨.Hidden, .Hidden, .Hidden, .Hidden, 10, .Paused,
        0, 2, 0, 2, 0, 2, 0, 2, 0, 1 / 2, 0, 0⟩ [])
        ⟨1, [KeyCode.U], ⟨0, 0⟩, [], none, 0⟩)).state.update_instant
      ≠ (⟨1, [KeyCode.U], ⟨0, 0⟩, [], none, 0⟩ : FrameInput).now := by
  have hfresh : (demoSim ⟨.Hidden, .Hidden, .Hidden, .Hidden, 10, .Paused,
      0, 2, 0, 2, 0, 2, 0, 2, 0, 1 / 2, 0, 0⟩ []).state.update_instant
      ≠ (⟨1, [KeyCode.U], ⟨0, 0⟩, [], none, 0⟩ : FrameInput).now := by
    norm_num [demoSim]
  have hgate : (demoSim ⟨.Hidden, .Hidden, .Hidden, .Hidden, 10, .Paused,
      0, 2, 0, 2, 0, 2, 0, 2, 0, 1 / 2, 0, 0⟩ []).state.is_spawnable
      (⟨1, [KeyCode.U], ⟨0, 0⟩, [], none, 0⟩ : FrameInput).now = false := by
    norm_num [demoSim, SimulationState.is_spawnable]
  refine ⟨hfresh, fun hnow => ?_⟩
  have hiff := (C3_manual_step_characterization
    (demoSim ⟨.Hidden, .Hidden, .Hidden, .Hidden, 10, .Paused,
      0, 2, 0, 2, 0, 2, 0, 2, 0, 1 / 2, 0, 0⟩ [])
    ⟨1, [KeyCode.U], ⟨0, 0⟩, [], none, 0⟩ _
    (Option.some_get (frame_isSome _ _)).symm hfresh).1
  have hrhs := hiff.mp hnow
  rw [hgate] at hrhs
  exact Bool.false_ne_true hrhs.2.1

end RustycsDemo
